import Mathlib

/-!
# Open Know Where / Open Know Terms templates

A shallow embedding of `templates/okw/okw.go`, `templates/okt/okt.go` and
`templates/main.go`.

* Go strings are byte sequences (`GoString`); string literals of the source are
  written `utf8 "..."`.
* `type T string` declarations become one-field structures, Go structs become
  Lean structures with the same field names, slices become `Slice`.
* Struct tags, which Lean structures cannot carry, are kept in a declaration
  table per module (`okw.decls`, `okt.decls`) in source order; the key
  derivation of the YAML and JSON encoders reads that table.
* Method sets, which the source inspects through `reflect` (`MethodByName`),
  are kept in a method table per module (`okw.methods`, `okt.methods`).
-/

set_option autoImplicit false
set_option linter.dupNamespace false

/-! ## Go strings and the part of package `strings` the validators use -/

/-- A Go string: an immutable sequence of bytes. -/
abbrev GoString := List UInt8

/-- The bytes of a source string literal (Go source text is UTF-8). -/
def utf8 (s : String) : GoString := s.toList.flatMap String.utf8EncodeChar

/-- The byte of the separator literal `"."`. -/
def dot : UInt8 := 0x2E

namespace strings

/-- Go `strings.Count(s, sep)` for a one-byte separator `sep = string(c)`: the
number of bytes of `s` equal to `c` (the `len(sep) == 1` branch of `Count`). -/
def Count : GoString → UInt8 → Nat
  | [], _ => 0
  | b :: rest, c => (if b = c then 1 else 0) + Count rest c

/-- Go `strings.Index(s, sep)` for a one-byte separator: the index of the first
byte equal to `c`; `none` stands for the result `-1`. -/
def IndexByte : GoString → UInt8 → Option Nat
  | [], _ => none
  | b :: rest, c => if b = c then some 0 else (IndexByte rest c).map (· + 1)

/-- The loop of Go `genSplit(s, sep, 0, n)` for a one-byte separator. The first
argument is the loop bound `n - 1 - i`; every round cuts `s` at the first
separator, `a[i] = s[:m]; s = s[m+len(sep):]`, and the loop ends with
`a[i] = s` when the bound is reached or no separator is left. -/
def genSplit (c : UInt8) : Nat → GoString → List GoString
  | 0, s => [s]
  | k + 1, s =>
    match IndexByte s c with
    | none => [s]
    | some m => s.take m :: genSplit c k (s.drop (m + 1))

/-- Go `strings.Split(s, sep)` for a one-byte separator `sep = string(c)`,
that is `genSplit(s, sep, 0, -1)`: `n = Count(s, sep) + 1`, capped at
`len(s) + 1`, then the loop runs while `i < n - 1`. -/
def Split (s : GoString) (c : UInt8) : List GoString :=
  let n := min (Count s c + 1) (s.length + 1)
  genSplit c (n - 1) s

end strings

/-! ## Shared Go data model -/

/-- A Go slice: `none` is the nil slice, `some xs` a non-nil slice. -/
abbrev Slice (α : Type) := Option (List α)

/-- A Go `float64`, kept as its IEEE-754 bit pattern; the zero value is `0`. -/
structure Float64 where
  bits : Nat
  deriving DecidableEq, Repr

/-- A value of an empty interface type (`interface{}`): nil, or a dynamic type
name together with an encoding of the dynamic value. -/
structure EmptyInterface where
  dyn : Option (String × GoString)
  deriving DecidableEq, Repr

/-- Go types as they occur in the field declarations of the two modules. -/
inductive GoType where
  | string
  | int
  | int64
  | bool
  | float64
  | named (name : String)
  | slice (elem : GoType)
  | emptyInterface
  | external (pkg : String) (name : String)
  deriving DecidableEq, Repr

/-- One field of a struct declaration: name, type and the struct tag as the
list of its `key:"value"` pairs in source order. -/
structure StructField where
  name : String
  type : GoType
  tags : List (String × String)
  deriving DecidableEq, Repr

/-- A type declaration `type T struct {...}` or `type T U`. -/
inductive TypeDecl where
  | struct (fields : List StructField)
  | defined (underlying : GoType)
  deriving DecidableEq, Repr

/-- The type declarations of a package, in source order. -/
abbrev Decls := List (String × TypeDecl)

/-- Go `reflect.StructTag.Lookup(key)`. -/
def StructField.tagLookup (f : StructField) (key : String) : Option String :=
  (f.tags.find? (fun kv => kv.1 == key)).map Prod.snd

/-- Go `reflect.StructTag.Get(key)`: the empty string when the key is absent. -/
def StructField.tagGet (f : StructField) (key : String) : String :=
  (f.tagLookup key).getD ""

/-- Go `strings.ToLower` on an identifier (identifiers of the source are ASCII). -/
def toLower (s : String) : String := String.mk (s.toList.map Char.toLower)

/-- Key of a field in `gopkg.in/yaml.v2` (`getStructInfo`): the `yaml` tag when
it is not empty, else the lower-cased field name. No tag of the source carries
options (`,omitempty`, ...) or is `-`, and the fallback to the raw tag applies
only to a non-empty tag without `:`, which does not occur. -/
def yamlKey (f : StructField) : String :=
  let tag := f.tagGet "yaml"
  if tag ≠ "" then tag else toLower f.name

/-- Key of a field in `encoding/json` (`typeFields`): the `json` tag when it is
not empty, else the field name itself. No tag of the source carries options or
is `-`. -/
def jsonKey (f : StructField) : String :=
  let tag := f.tagGet "json"
  if tag ≠ "" then tag else f.name

/-- The declaration of a named type. -/
def Decls.lookup (ds : Decls) (name : String) : Option TypeDecl :=
  (ds.find? (fun d => d.1 == name)).map Prod.snd

/-- The fields of a named struct type (empty when the type is not a struct). -/
def Decls.fields (ds : Decls) (name : String) : List StructField :=
  match ds.lookup name with
  | some (.struct fs) => fs
  | _ => []

/-- A field of a named struct type. -/
def Decls.field (ds : Decls) (type name : String) : Option StructField :=
  (ds.fields type).find? (fun f => f.name == name)

/-- The named types a type expression mentions: the type itself, or the
element type of a slice. -/
def GoType.namedRefs : GoType → List String
  | .named n => [n]
  | .slice t => t.namedRefs
  | _ => []

/-- The named types a declared type refers to directly: through the fields of
a struct (slice elements included) or through its underlying type. -/
def Decls.directRefs (ds : Decls) (name : String) : List String :=
  match ds.lookup name with
  | some (.struct fs) => fs.flatMap (fun f => f.type.namedRefs)
  | some (.defined u) => u.namedRefs
  | none => []

/-- One reference step between named types. -/
def Decls.Refers (ds : Decls) (a b : String) : Prop := b ∈ ds.directRefs a

/-- Named type `t` is nested in `root`: reachable from it by one or more
reference steps through struct fields and slice elements. -/
def Decls.Reachable (ds : Decls) (root t : String) : Prop :=
  Relation.TransGen ds.Refers root t

/-- The method table of a package: pairs of receiver type and method name. This
is what `reflect.Value.MethodByName` consults. -/
abbrev Methods := List (String × String)

/-- Go `reflect.ValueOf(x).MethodByName(m).IsValid()` for `x` of type `t`. -/
def Methods.has (ms : Methods) (t m : String) : Bool := ms.contains (t, m)

/-- An enumeration-listing capability: the type has both the value listing
`Enum` and the string listing `EnumOptions`. -/
def Methods.hasListing (ms : Methods) (t : String) : Bool :=
  ms.has t "Enum" && ms.has t "EnumOptions"

/-- The fields of the declared structs whose YAML key and JSON key differ, as
pairs of struct name and field name, in source order. -/
def Decls.keyMismatches (ds : Decls) : List (String × String) :=
  ds.flatMap fun d =>
    match d.2 with
    | .struct fs => (fs.filter (fun f => yamlKey f != jsonKey f)).map (fun f => (d.1, f.name))
    | .defined _ => []

/-! ## Package `net/url` (standard library), as far as the modules name it -/

namespace url

/-- Go `net/url.Userinfo`. -/
structure Userinfo where
  username : GoString
  password : GoString
  passwordSet : Bool
  deriving DecidableEq

/-- Go `net/url.URL`; the pointer field `User` is `none` when nil. -/
structure URL where
  Scheme : GoString
  Opaque : GoString
  User : Option Userinfo
  Host : GoString
  Path : GoString
  RawPath : GoString
  ForceQuery : Bool
  RawQuery : GoString
  Fragment : GoString
  deriving DecidableEq

/-- The zero value `url.URL{}`. -/
def URL.zero : url.URL :=
  { Scheme := [], Opaque := [], User := none, Host := [], Path := [], RawPath := [],
    ForceQuery := false, RawQuery := [], Fragment := [] }

end url

/-! ## Package `okw` (templates/okw/okw.go) -/

namespace okw

/-- Go `type FacilityStatus string`. -/
structure FacilityStatus where
  str : GoString
  deriving DecidableEq

/-- Go `type AccessType string`. -/
structure AccessType where
  str : GoString
  deriving DecidableEq

/-- Go `type TypicalBatchSize string`. -/
structure TypicalBatchSize where
  str : GoString
  deriving DecidableEq

/-- Go `type Skill string`. -/
structure Skill where
  str : GoString
  deriving DecidableEq

/-- Go `type MaterialType string`. -/
structure MaterialType where
  str : GoString
  deriving DecidableEq

/-- Go `type Certification string`. -/
structure Certification where
  str : GoString
  deriving DecidableEq

/-- Go `type Service interface{}`. -/
structure Service where
  val : EmptyInterface
  deriving DecidableEq

/-- Go `type URL url.URL`. -/
structure URL where
  val : url.URL
  deriving DecidableEq

/-- The zero value `FacilityStatus("")`. -/
def FacilityStatus.zero : okw.FacilityStatus := ⟨[]⟩

/-- The zero value `AccessType("")`. -/
def AccessType.zero : okw.AccessType := ⟨[]⟩

/-- The zero value `TypicalBatchSize("")`. -/
def TypicalBatchSize.zero : okw.TypicalBatchSize := ⟨[]⟩

/-- The zero value `Skill("")`. -/
def Skill.zero : okw.Skill := ⟨[]⟩

/-- The zero value `MaterialType("")`. -/
def MaterialType.zero : okw.MaterialType := ⟨[]⟩

/-- The zero value `Certification("")`. -/
def Certification.zero : okw.Certification := ⟨[]⟩

/-- The zero value of `Service`: the nil interface. -/
def Service.zero : okw.Service := ⟨⟨none⟩⟩

/-- The zero value `URL(url.URL{})`. -/
def URL.zero : okw.URL := ⟨url.URL.zero⟩

/-- Go `Active FacilityStatus = "Active"`. -/
def Active : FacilityStatus := ⟨utf8 "Active"⟩

/-- Go `Planned FacilityStatus = "Planned"`. -/
def Planned : FacilityStatus := ⟨utf8 "Planned"⟩

/-- Go `TemporaryClosure FacilityStatus = "Temporary Closure"`. -/
def TemporaryClosure : FacilityStatus := ⟨utf8 "Temporary Closure"⟩

/-- Go `Closed FacilityStatus = "Closed"`. -/
def Closed : FacilityStatus := ⟨utf8 "Closed"⟩

/-- Go `Restricted AccessType = "Restricted"`. -/
def Restricted : AccessType := ⟨utf8 "Restricted"⟩

/-- Go `RestrictedWithPublicHours AccessType = "Restricted with public hours"`. -/
def RestrictedWithPublicHours : AccessType := ⟨utf8 "Restricted with public hours"⟩

/-- Go `SharedSpace AccessType = "Shared space"`. -/
def SharedSpace : AccessType := ⟨utf8 "Shared space"⟩

/-- Go `Public AccessType = "Public"`. -/
def Public : AccessType := ⟨utf8 "Public"⟩

/-- Go `Membership AccessType = "Membership"`. -/
def Membership : AccessType := ⟨utf8 "Membership"⟩

/-- The `const (...)` block: name, type and value of every constant. -/
def constants : List (String × String × GoString) := [
  ("Active", "FacilityStatus", Active.str),
  ("Planned", "FacilityStatus", Planned.str),
  ("TemporaryClosure", "FacilityStatus", TemporaryClosure.str),
  ("Closed", "FacilityStatus", Closed.str),
  ("Restricted", "AccessType", Restricted.str),
  ("RestrictedWithPublicHours", "AccessType", RestrictedWithPublicHours.str),
  ("SharedSpace", "AccessType", SharedSpace.str),
  ("Public", "AccessType", Public.str),
  ("Membership", "AccessType", Membership.str)]

/-- Go `func (fs FacilityStatus) IsEnum() bool`. -/
def FacilityStatus.IsEnum (_fs : FacilityStatus) : Bool := true

/-- Go `func (fs FacilityStatus) Enum() []FacilityStatus`. -/
def FacilityStatus.Enum (_fs : FacilityStatus) : List FacilityStatus :=
  [Active, Planned, TemporaryClosure, Closed]

/-- Go `func (fs FacilityStatus) EnumOptions() []string`. -/
def FacilityStatus.EnumOptions (_fs : FacilityStatus) : List GoString :=
  [Active.str, Planned.str, TemporaryClosure.str, Closed.str]

/-- Go `func (at AccessType) IsEnum() bool`. -/
def AccessType.IsEnum (_at : AccessType) : Bool := true

/-- Go `func (at AccessType) Enum() []AccessType`. -/
def AccessType.Enum (_at : AccessType) : List AccessType :=
  [Restricted, RestrictedWithPublicHours, SharedSpace, Public, Membership]

/-- Go `func (at AccessType) EnumOptions() []string`. -/
def AccessType.EnumOptions (_at : AccessType) : List GoString :=
  [Restricted.str, RestrictedWithPublicHours.str, SharedSpace.str, Public.str, Membership.str]

/-- Go `func (tbs TypicalBatchSize) Enum() []TypicalBatchSize`. -/
def TypicalBatchSize.Enum (_tbs : TypicalBatchSize) : List TypicalBatchSize := []

/-- Go `func (tbs TypicalBatchSize) EnumOptions() []string`. -/
def TypicalBatchSize.EnumOptions (_tbs : TypicalBatchSize) : List GoString := []

/-- Go `func (s Skill) Enum() []Skill`. -/
def Skill.Enum (_s : Skill) : List Skill := []

/-- Go `func (s Skill) EnumOptions() []string`. -/
def Skill.EnumOptions (_s : Skill) : List GoString := []

/-- Go `func (c Certification) Enum() []Certification`. -/
def Certification.Enum (_c : Certification) : List Certification := []

/-- Go `func (c Certification) EnumOptions() []string`. -/
def Certification.EnumOptions (_c : Certification) : List GoString := []

/-- The methods declared in the package, in source order. -/
def methods : Methods := [
  ("FacilityStatus", "IsEnum"),
  ("FacilityStatus", "Enum"),
  ("FacilityStatus", "EnumOptions"),
  ("AccessType", "IsEnum"),
  ("AccessType", "Enum"),
  ("AccessType", "EnumOptions"),
  ("TypicalBatchSize", "Enum"),
  ("TypicalBatchSize", "EnumOptions"),
  ("Skill", "Enum"),
  ("Skill", "EnumOptions"),
  ("Certification", "Enum"),
  ("Certification", "EnumOptions")]

/-- Go `type Student struct`. -/
structure Student where
  Fname : GoString
  Lname : GoString
  City : GoString
  Mobile : Int
  deriving DecidableEq

/-- The zero value of `Student`. -/
def Student.zero : okw.Student :=
  {
    Fname := [],
    Lname := [],
    City := [],
    Mobile := 0 }

/-- Go `type What3Words struct`. -/
structure What3Words where
  Coordinates : GoString
  Language : GoString
  deriving DecidableEq

/-- The zero value of `What3Words`. -/
def What3Words.zero : okw.What3Words :=
  {
    Coordinates := [],
    Language := [] }

/-- Go `type Address struct`. -/
structure Address where
  Number : GoString
  Street : GoString
  District : GoString
  City : GoString
  Region : GoString
  Country : GoString
  Postcode : GoString
  deriving DecidableEq

/-- The zero value of `Address`. -/
def Address.zero : okw.Address :=
  {
    Number := [],
    Street := [],
    District := [],
    City := [],
    Region := [],
    Country := [],
    Postcode := [] }

/-- Go `type GPS struct`. -/
structure GPS where
  Latitude : Float64
  Longitude : Float64
  deriving DecidableEq

/-- The zero value of `GPS`. -/
def GPS.zero : okw.GPS :=
  {
    Latitude := ⟨0⟩,
    Longitude := ⟨0⟩ }

/-- Go `type Location struct`. -/
structure Location where
  Address : okw.Address
  GPS : okw.GPS
  Directions : GoString
  What3Words : GoString
  deriving DecidableEq

/-- The zero value of `Location`. -/
def Location.zero : okw.Location :=
  {
    Address := okw.Address.zero,
    GPS := okw.GPS.zero,
    Directions := [],
    What3Words := [] }

/-- Go `type Contact struct`. -/
structure Contact where
  Landline : GoString
  Mobile : GoString
  Fax : GoString
  Email : GoString
  WhatsApp : GoString
  deriving DecidableEq

/-- The zero value of `Contact`. -/
def Contact.zero : okw.Contact :=
  {
    Landline := [],
    Mobile := [],
    Fax := [],
    Email := [],
    WhatsApp := [] }

/-- Go `type SocialMedia struct`. -/
structure SocialMedia where
  Facebook : GoString
  Twitter : GoString
  Instagram : GoString
  OtherURLs : Slice GoString
  deriving DecidableEq

/-- The zero value of `SocialMedia`. -/
def SocialMedia.zero : okw.SocialMedia :=
  {
    Facebook := [],
    Twitter := [],
    Instagram := [],
    OtherURLs := none }

/-- Go `type Agent struct`. -/
structure Agent where
  Name : GoString
  Location : okw.Location
  ContactPerson : GoString
  Contact : okw.Contact
  Website : GoString
  SocialMedia : okw.SocialMedia
  deriving DecidableEq

/-- The zero value of `Agent`. -/
def Agent.zero : okw.Agent :=
  {
    Name := [],
    Location := okw.Location.zero,
    ContactPerson := [],
    Contact := okw.Contact.zero,
    Website := [],
    SocialMedia := okw.SocialMedia.zero }

/-- Go `type Equipment struct`. -/
structure Equipment where
  EquipmentType : GoString
  ManufacturingProcess : GoString
  Make : GoString
  Model : GoString
  SerialNumber : GoString
  Location : okw.Location
  SkillsRequired : Slice okw.Skill
  Condition : GoString
  deriving DecidableEq

/-- The zero value of `Equipment`. -/
def Equipment.zero : okw.Equipment :=
  {
    EquipmentType := [],
    ManufacturingProcess := [],
    Make := [],
    Model := [],
    SerialNumber := [],
    Location := okw.Location.zero,
    SkillsRequired := none,
    Condition := [] }

/-- Go `type Material struct`. -/
structure Material where
  MaterialType : GoString
  Manufacturer : GoString
  Brand : GoString
  SupplierLocation : okw.Location
  DefinedMaterialType : okw.MaterialType
  deriving DecidableEq

/-- The zero value of `Material`. -/
def Material.zero : okw.Material :=
  {
    MaterialType := [],
    Manufacturer := [],
    Brand := [],
    SupplierLocation := okw.Location.zero,
    DefinedMaterialType := okw.MaterialType.zero }

/-- Go `type EquipmentProperties struct`. -/
structure EquipmentProperties where
  Axes : Int
  BedSize : Int
  BendingLength : Int
  BuildVolume : Int
  ChuckJawDiameter : Int
  ColletSize : Int
  ComputerControlled : Bool
  CrossSlideTravel : Int
  DaylightOpening : Int
  DistanceBetweenCentres : Int
  EjectorThreads : Int
  ExtractionSystem : Bool
  GantryMaterial : okw.Material
  deriving DecidableEq

/-- The zero value of `EquipmentProperties`. -/
def EquipmentProperties.zero : okw.EquipmentProperties :=
  {
    Axes := 0,
    BedSize := 0,
    BendingLength := 0,
    BuildVolume := 0,
    ChuckJawDiameter := 0,
    ColletSize := 0,
    ComputerControlled := false,
    CrossSlideTravel := 0,
    DaylightOpening := 0,
    DistanceBetweenCentres := 0,
    EjectorThreads := 0,
    ExtractionSystem := false,
    GantryMaterial := okw.Material.zero }

/-- Go `type CircularEconomy struct`. -/
structure CircularEconomy where
  CircularEconomy : Bool
  Description : GoString
  ByProducts : Slice okw.Material
  deriving DecidableEq

/-- The zero value of `CircularEconomy`. -/
def CircularEconomy.zero : okw.CircularEconomy :=
  {
    CircularEconomy := false,
    Description := [],
    ByProducts := none }

/-- Go `type HumanCapacity struct`. -/
structure HumanCapacity where
  Headcount : Int
  Maker : GoString
  deriving DecidableEq

/-- The zero value of `HumanCapacity`. -/
def HumanCapacity.zero : okw.HumanCapacity :=
  {
    Headcount := 0,
    Maker := [] }

/-- Go `type LearningResource struct`. -/
structure LearningResource where
  deriving DecidableEq

/-- The zero value of `LearningResource`. -/
def LearningResource.zero : okw.LearningResource :=
  {}

/-- Go `type InnovationSpace struct`. -/
structure InnovationSpace where
  Staff : Int
  LearningResources : Slice okw.LearningResource
  Services : Slice okw.Service
  Footfall : Int
  Residencies : Bool
  deriving DecidableEq

/-- The zero value of `InnovationSpace`. -/
def InnovationSpace.zero : okw.InnovationSpace :=
  {
    Staff := 0,
    LearningResources := none,
    Services := none,
    Footfall := 0,
    Residencies := false }

/-- Go `type CustomerReview struct`. -/
structure CustomerReview where
  Identifier : GoString
  Rating : Int
  Body : GoString
  deriving DecidableEq

/-- The zero value of `CustomerReview`. -/
def CustomerReview.zero : okw.CustomerReview :=
  {
    Identifier := [],
    Rating := 0,
    Body := [] }

/-- Go `type OKW struct`. -/
structure OKW where
  Name : GoString
  Location : okw.Location
  Owner : okw.Agent
  Contact : okw.Agent
  Affiliations : Slice okw.Agent
  FacilityStatus : okw.FacilityStatus
  OpeningHours : GoString
  Description : GoString
  DateFounded : GoString
  AccessType : okw.AccessType
  WheelchairAcessibility : Bool
  Equipment : okw.Equipment
  ManufacturingProcesses : GoString
  TypicalBatchSize : okw.TypicalBatchSize
  SizeFloorSize : Int
  StorageCapacity : GoString
  TypicalMaterials : Slice okw.Material
  Certifications : Slice okw.Certification
  BackupGenerator : Bool
  UninterruptedPowerSupply : Bool
  RoadAccess : Bool
  LoadingDock : Bool
  MaintenanceSchedule : GoString
  TypicalProducts : Slice GoString
  PartnerFunder : okw.Agent
  CustomerReviews : Slice okw.CustomerReview
  deriving DecidableEq

/-- The zero value of `OKW`. -/
def OKW.zero : okw.OKW :=
  {
    Name := [],
    Location := okw.Location.zero,
    Owner := okw.Agent.zero,
    Contact := okw.Agent.zero,
    Affiliations := none,
    FacilityStatus := okw.FacilityStatus.zero,
    OpeningHours := [],
    Description := [],
    DateFounded := [],
    AccessType := okw.AccessType.zero,
    WheelchairAcessibility := false,
    Equipment := okw.Equipment.zero,
    ManufacturingProcesses := [],
    TypicalBatchSize := okw.TypicalBatchSize.zero,
    SizeFloorSize := 0,
    StorageCapacity := [],
    TypicalMaterials := none,
    Certifications := none,
    BackupGenerator := false,
    UninterruptedPowerSupply := false,
    RoadAccess := false,
    LoadingDock := false,
    MaintenanceSchedule := [],
    TypicalProducts := none,
    PartnerFunder := okw.Agent.zero,
    CustomerReviews := none }

/-- The type declarations of the package, in source order, with the struct tags. -/
def decls : Decls := [
  ("Student", .struct [
    ⟨"Fname", .string, []⟩,
    ⟨"Lname", .string, []⟩,
    ⟨"City", .string, []⟩,
    ⟨"Mobile", .int64, []⟩]),
  ("OKW", .struct [
    ⟨"Name", .string, [("yaml", "name"), ("daml", "name"), ("json", "name"), ("validate", "required")]⟩,
    ⟨"Location", (.named "Location"), [("yaml", "location"), ("daml", "location"), ("json", "location"), ("validate", "required")]⟩,
    ⟨"Owner", (.named "Agent"), [("yaml", "owner"), ("daml", "owner"), ("json", "owner")]⟩,
    ⟨"Contact", (.named "Agent"), [("yaml", "contact"), ("daml", "contact"), ("json", "contact"), ("validate", "required")]⟩,
    ⟨"Affiliations", (.slice (.named "Agent")), [("yaml", "affiliations"), ("daml", "affiliations"), ("json", "affiliations")]⟩,
    ⟨"FacilityStatus", (.named "FacilityStatus"), [("yaml", "facility_status"), ("daml", "facility_status"), ("json", "facility_status")]⟩,
    ⟨"OpeningHours", .string, [("yaml", "opening_hours"), ("daml", "opening_hours"), ("json", "opening_hours")]⟩,
    ⟨"Description", .string, [("yaml", "description"), ("daml", "description"), ("json", "description")]⟩,
    ⟨"DateFounded", .string, [("yaml", "date_founded"), ("daml", "date_founded"), ("json", "date_founded")]⟩,
    ⟨"AccessType", (.named "AccessType"), [("yaml", "access_type"), ("daml", "access_type"), ("json", "access_type")]⟩,
    ⟨"WheelchairAcessibility", .bool, [("yaml", "wheelchair_acessibility"), ("daml", "wheelchair_acessibility"), ("json", "wheelchair_acessibility")]⟩,
    ⟨"Equipment", (.named "Equipment"), [("yaml", "equipment"), ("daml", "equipment"), ("json", "equipment")]⟩,
    ⟨"ManufacturingProcesses", .string, [("yaml", "manufacturing_processes"), ("daml", "manufacturing_processes"), ("json", "manufacturing_processes")]⟩,
    ⟨"TypicalBatchSize", (.named "TypicalBatchSize"), [("yaml", "typical_batch_size"), ("daml", "typical_batch_size"), ("json", "typical_batch_size")]⟩,
    ⟨"SizeFloorSize", .int, [("yaml", "size_floor_size"), ("daml", "size_floor_size"), ("json", "size_floor_size")]⟩,
    ⟨"StorageCapacity", .string, [("yaml", "storage_capacity"), ("daml", "storage_capacity"), ("json", "storage_capacity")]⟩,
    ⟨"TypicalMaterials", (.slice (.named "Material")), [("yaml", "typical_materials"), ("daml", "typical_materials"), ("json", "typical_materials")]⟩,
    ⟨"Certifications", (.slice (.named "Certification")), [("yaml", "certifications"), ("daml", "certifications"), ("json", "certifications")]⟩,
    ⟨"BackupGenerator", .bool, [("yaml", "backup_generator"), ("daml", "backup_generator"), ("json", "backup_generator")]⟩,
    ⟨"UninterruptedPowerSupply", .bool, [("yaml", "uninterrupted_power_supply"), ("daml", "uninterrupted_power_supply"), ("json", "uninterrupted_power_supply")]⟩,
    ⟨"RoadAccess", .bool, [("yaml", "road_access"), ("daml", "road_access"), ("json", "road_access")]⟩,
    ⟨"LoadingDock", .bool, [("yaml", "loading_dock"), ("daml", "loading_dock"), ("json", "loading_dock")]⟩,
    ⟨"MaintenanceSchedule", .string, [("yaml", "maintenance_schedule"), ("daml", "maintenance_schedule"), ("json", "maintenance_schedule")]⟩,
    ⟨"TypicalProducts", (.slice (.string)), [("yaml", "typical_products"), ("daml", "typical_products"), ("json", "typical_products")]⟩,
    ⟨"PartnerFunder", (.named "Agent"), [("yaml", "partner_funder"), ("daml", "partner_funder"), ("json", "partner_funder")]⟩,
    ⟨"CustomerReviews", (.slice (.named "CustomerReview")), [("yaml", "customer_reviews"), ("daml", "customer_reviews"), ("json", "customer_reviews")]⟩]),
  ("FacilityStatus", .defined (.string)),
  ("AccessType", .defined (.string)),
  ("TypicalBatchSize", .defined (.string)),
  ("Location", .struct [
    ⟨"Address", (.named "Address"), [("yaml", "address"), ("daml", "address"), ("json", "address")]⟩,
    ⟨"GPS", (.named "GPS"), [("yaml", "gps"), ("daml", "gps"), ("json", "gps")]⟩,
    ⟨"Directions", .string, [("yaml", "directions"), ("daml", "directions"), ("json", "directions")]⟩,
    ⟨"What3Words", .string, [("yaml", "what_3_words"), ("daml", "what_3_words"), ("json", "what_3_words")]⟩]),
  ("What3Words", .struct [
    ⟨"Coordinates", .string, [("yaml", "coordinates"), ("daml", "coordinates"), ("json", "coordinates"), ("validate", "what3words")]⟩,
    ⟨"Language", .string, [("yaml", "language"), ("daml", "language"), ("json", "language")]⟩]),
  ("Address", .struct [
    ⟨"Number", .string, [("yaml", "number"), ("daml", "number"), ("json", "number")]⟩,
    ⟨"Street", .string, [("yaml", "street"), ("daml", "street"), ("json", "street")]⟩,
    ⟨"District", .string, [("yaml", "district"), ("daml", "district"), ("json", "district")]⟩,
    ⟨"City", .string, [("yaml", "city"), ("daml", "city"), ("json", "city")]⟩,
    ⟨"Region", .string, [("yaml", "region"), ("daml", "region"), ("json", "region")]⟩,
    ⟨"Country", .string, [("yaml", "country"), ("daml", "country"), ("json", "country")]⟩,
    ⟨"Postcode", .string, [("yaml", "postcode"), ("daml", "postcode"), ("json", "postcode")]⟩]),
  ("GPS", .struct [
    ⟨"Latitude", .float64, [("yaml", "latitude"), ("daml", "latitude"), ("json", "latitude")]⟩,
    ⟨"Longitude", .float64, [("yaml", "longitude"), ("daml", "longitude"), ("json", "logitude")]⟩]),
  ("Agent", .struct [
    ⟨"Name", .string, [("yaml", "name"), ("daml", "name"), ("json", "name"), ("validate", "required")]⟩,
    ⟨"Location", (.named "Location"), [("yaml", "location"), ("daml", "location"), ("json", "location")]⟩,
    ⟨"ContactPerson", .string, [("yaml", "contact_person"), ("daml", "contact_person"), ("json", "contact_person")]⟩,
    ⟨"Contact", (.named "Contact"), [("yaml", "contact"), ("daml", "contact"), ("json", "contact")]⟩,
    ⟨"Website", .string, [("yaml", "website"), ("daml", "website"), ("json", "website")]⟩,
    ⟨"SocialMedia", (.named "SocialMedia"), [("yaml", "social_media"), ("daml", "social_media"), ("json", "social_media")]⟩]),
  ("URL", .defined (.external "url" "URL")),
  ("Contact", .struct [
    ⟨"Landline", .string, [("yaml", "landline"), ("daml", "landline"), ("json", "landline")]⟩,
    ⟨"Mobile", .string, [("yaml", "mobile"), ("daml", "mobile"), ("json", "mobile")]⟩,
    ⟨"Fax", .string, [("yaml", "fax"), ("daml", "fax"), ("json", "fax")]⟩,
    ⟨"Email", .string, [("yaml", "email"), ("daml", "email"), ("json", "email")]⟩,
    ⟨"WhatsApp", .string, [("yaml", "whatsapp"), ("daml", "whatsapp"), ("json", "whatsapp")]⟩]),
  ("SocialMedia", .struct [
    ⟨"Facebook", .string, [("yaml", "landline"), ("daml", "landline"), ("json", "landline")]⟩,
    ⟨"Twitter", .string, [("yaml", "twitter"), ("daml", "twitter"), ("json", "twitter")]⟩,
    ⟨"Instagram", .string, [("yaml", "instagram"), ("daml", "instagram"), ("json", "instagram")]⟩,
    ⟨"OtherURLs", (.slice (.string)), [("yaml", "other_urls"), ("daml", "other_urls"), ("json", "other_urls")]⟩]),
  ("Skill", .defined (.string)),
  ("Equipment", .struct [
    ⟨"EquipmentType", .string, [("yaml", "equipment_type"), ("daml", "equipment_type"), ("json", "equipment_type")]⟩,
    ⟨"ManufacturingProcess", .string, [("yaml", "manufacturing_process"), ("daml", "manufacturing_process"), ("json", "manufacturing_process")]⟩,
    ⟨"Make", .string, [("yaml", "make"), ("daml", "make"), ("json", "make")]⟩,
    ⟨"Model", .string, [("yaml", "model"), ("daml", "model"), ("json", "model")]⟩,
    ⟨"SerialNumber", .string, [("yaml", "serial_number"), ("daml", "serial_number"), ("json", "serial_number")]⟩,
    ⟨"Location", (.named "Location"), [("yaml", "location"), ("daml", "location"), ("json", "location")]⟩,
    ⟨"SkillsRequired", (.slice (.named "Skill")), [("yaml", "skills_required"), ("daml", "skills_required"), ("json", "skills_required")]⟩,
    ⟨"Condition", .string, [("yaml", "condition"), ("daml", "condition"), ("json", "condition")]⟩]),
  ("EquipmentProperties", .struct [
    ⟨"Axes", .int, [("yaml", "axes"), ("daml", "axes"), ("json", "axes")]⟩,
    ⟨"BedSize", .int, [("yaml", "bed_size"), ("daml", "bed_size"), ("json", "bed_size")]⟩,
    ⟨"BendingLength", .int, []⟩,
    ⟨"BuildVolume", .int, []⟩,
    ⟨"ChuckJawDiameter", .int, []⟩,
    ⟨"ColletSize", .int, []⟩,
    ⟨"ComputerControlled", .bool, []⟩,
    ⟨"CrossSlideTravel", .int, []⟩,
    ⟨"DaylightOpening", .int, []⟩,
    ⟨"DistanceBetweenCentres", .int, []⟩,
    ⟨"EjectorThreads", .int, []⟩,
    ⟨"ExtractionSystem", .bool, []⟩,
    ⟨"GantryMaterial", (.named "Material"), []⟩]),
  ("Material", .struct [
    ⟨"MaterialType", .string, [("yaml", "material_type"), ("daml", "material_type"), ("json", "material_type")]⟩,
    ⟨"Manufacturer", .string, []⟩,
    ⟨"Brand", .string, []⟩,
    ⟨"SupplierLocation", (.named "Location"), []⟩,
    ⟨"DefinedMaterialType", (.named "MaterialType"), []⟩]),
  ("MaterialType", .defined (.string)),
  ("CircularEconomy", .struct [
    ⟨"CircularEconomy", .bool, [("yaml", "circular_economy"), ("daml", "circular_economy"), ("json", "circular_economy")]⟩,
    ⟨"Description", .string, [("yaml", "description"), ("daml", "description"), ("json", "description")]⟩,
    ⟨"ByProducts", (.slice (.named "Material")), [("yaml", "material"), ("daml", "material"), ("json", "material")]⟩]),
  ("HumanCapacity", .struct [
    ⟨"Headcount", .int, [("yaml", "headcount"), ("daml", "headcount"), ("json", "headcount")]⟩,
    ⟨"Maker", .string, [("yaml", "maker"), ("daml", "maker"), ("json", "maker")]⟩]),
  ("InnovationSpace", .struct [
    ⟨"Staff", .int, [("yaml", "staff"), ("daml", "staff"), ("json", "staff")]⟩,
    ⟨"LearningResources", (.slice (.named "LearningResource")), [("yaml", "learning_resources"), ("daml", "learning_resources"), ("json", "learning_resources")]⟩,
    ⟨"Services", (.slice (.named "Service")), [("yaml", "services"), ("daml", "services"), ("json", "services")]⟩,
    ⟨"Footfall", .int, [("yaml", "footfall"), ("daml", "footfall"), ("json", "footfall")]⟩,
    ⟨"Residencies", .bool, [("yaml", "residencies"), ("daml", "residencies"), ("json", "residencies")]⟩]),
  ("LearningResource", .struct [
]),
  ("Service", .defined (.emptyInterface)),
  ("Certification", .defined (.string)),
  ("CustomerReview", .struct [
    ⟨"Identifier", .string, [("yaml", "indentifier"), ("daml", "indentifier"), ("json", "indentifier")]⟩,
    ⟨"Rating", .int, [("yaml", "rating"), ("daml", "rating"), ("json", "rating"), ("validate", "gte=1,lte=5")]⟩,
    ⟨"Body", .string, [("yaml", "body"), ("daml", "body"), ("json", "body")]⟩])]

/-- A value boxed in `interface{}` by `TypeMap`: one case per dynamic type. -/
inductive Any where
  | FacilityStatus (v : okw.FacilityStatus)
  | AccessType (v : okw.AccessType)
  | TypicalBatchSize (v : okw.TypicalBatchSize)
  | Location (v : okw.Location)
  | What3Words (v : okw.What3Words)
  | Address (v : okw.Address)
  | GPS (v : okw.GPS)
  | Agent (v : okw.Agent)
  | URL (v : okw.URL)
  | Contact (v : okw.Contact)
  | SocialMedia (v : okw.SocialMedia)
  | Skill (v : okw.Skill)
  | Equipment (v : okw.Equipment)
  | EquipmentProperties (v : okw.EquipmentProperties)
  | Material (v : okw.Material)
  | MaterialType (v : okw.MaterialType)
  | CircularEconomy (v : okw.CircularEconomy)
  | HumanCapacity (v : okw.HumanCapacity)
  | InnovationSpace (v : okw.InnovationSpace)
  | LearningResource (v : okw.LearningResource)
  | CustomerReview (v : okw.CustomerReview)
  | Certification (v : okw.Certification)
  deriving DecidableEq

/-- The dynamic type of a boxed value. -/
def Any.type : Any → GoType
  | .FacilityStatus _ => .named "FacilityStatus"
  | .AccessType _ => .named "AccessType"
  | .TypicalBatchSize _ => .named "TypicalBatchSize"
  | .Location _ => .named "Location"
  | .What3Words _ => .named "What3Words"
  | .Address _ => .named "Address"
  | .GPS _ => .named "GPS"
  | .Agent _ => .named "Agent"
  | .URL _ => .named "URL"
  | .Contact _ => .named "Contact"
  | .SocialMedia _ => .named "SocialMedia"
  | .Skill _ => .named "Skill"
  | .Equipment _ => .named "Equipment"
  | .EquipmentProperties _ => .named "EquipmentProperties"
  | .Material _ => .named "Material"
  | .MaterialType _ => .named "MaterialType"
  | .CircularEconomy _ => .named "CircularEconomy"
  | .HumanCapacity _ => .named "HumanCapacity"
  | .InnovationSpace _ => .named "InnovationSpace"
  | .LearningResource _ => .named "LearningResource"
  | .CustomerReview _ => .named "CustomerReview"
  | .Certification _ => .named "Certification"

/-- Go `func TypeMap() map[string]interface{}`: the entries of the map literal
in source order (the keys of a map literal are pairwise distinct). A composite
literal `T{}` without fields and a conversion `T("")` are the zero value. -/
def TypeMap : List (String × Any) := [
  ("FacilityStatus", .FacilityStatus FacilityStatus.zero),
  ("AccessType", .AccessType AccessType.zero),
  ("TypicalBatchSize", .TypicalBatchSize TypicalBatchSize.zero),
  ("Location", .Location Location.zero),
  ("What3Words", .What3Words What3Words.zero),
  ("Address", .Address Address.zero),
  ("GPS", .GPS GPS.zero),
  ("Agent", .Agent Agent.zero),
  ("URL", .URL URL.zero),
  ("Contact", .Contact Contact.zero),
  ("SocialMedia", .SocialMedia SocialMedia.zero),
  ("Skill", .Skill Skill.zero),
  ("Equipment", .Equipment Equipment.zero),
  ("EquipmentProperties", .EquipmentProperties EquipmentProperties.zero),
  ("Material", .Material Material.zero),
  ("MaterialType", .MaterialType MaterialType.zero),
  ("CircularEconomy", .CircularEconomy CircularEconomy.zero),
  ("HumanCapacity", .HumanCapacity HumanCapacity.zero),
  ("InnovationSpace", .InnovationSpace InnovationSpace.zero),
  ("LearningResource", .LearningResource LearningResource.zero),
  ("CustomerReview", .CustomerReview CustomerReview.zero),
  ("Certification", .Certification Certification.zero)]

/-- The keys of the type-map. -/
def TypeMapKeys : List String := TypeMap.map Prod.fst

/-- The function `Sample` registers under the tag `what3words`:
`len(strings.Split(fl.Field().String(), ".")) == 3`, on the field's string. -/
def what3words (field : GoString) : Bool :=
  (strings.Split field dot).length == 3

end okw

/-! ## Package `okt` (templates/okt/okt.go) -/

namespace okt

/-- Go `type FacilityStatus string`. -/
structure FacilityStatus where
  str : GoString
  deriving DecidableEq

/-- Go `type AccessType string`. -/
structure AccessType where
  str : GoString
  deriving DecidableEq

/-- Go `type TypicalBatchSize string`. -/
structure TypicalBatchSize where
  str : GoString
  deriving DecidableEq

/-- Go `type Skill string`. -/
structure Skill where
  str : GoString
  deriving DecidableEq

/-- Go `type Certification string`. -/
structure Certification where
  str : GoString
  deriving DecidableEq

/-- Go `type Service interface{}`. -/
structure Service where
  val : EmptyInterface
  deriving DecidableEq

/-- Go `type GeoShape interface{}`. -/
structure GeoShape where
  val : EmptyInterface
  deriving DecidableEq

/-- Go `type Permit interface{}`. -/
structure Permit where
  val : EmptyInterface
  deriving DecidableEq

/-- Go `type URL url.URL`. -/
structure URL where
  val : url.URL
  deriving DecidableEq

/-- The zero value `FacilityStatus("")`. -/
def FacilityStatus.zero : okt.FacilityStatus := ⟨[]⟩

/-- The zero value `AccessType("")`. -/
def AccessType.zero : okt.AccessType := ⟨[]⟩

/-- The zero value `TypicalBatchSize("")`. -/
def TypicalBatchSize.zero : okt.TypicalBatchSize := ⟨[]⟩

/-- The zero value `Skill("")`. -/
def Skill.zero : okt.Skill := ⟨[]⟩

/-- The zero value `Certification("")`. -/
def Certification.zero : okt.Certification := ⟨[]⟩

/-- The zero value `URL(url.URL{})`. -/
def URL.zero : okt.URL := ⟨url.URL.zero⟩

/-- The `const ()` block of the package: it declares no constant. -/
def constants : List (String × String × GoString) := []

/-- Go `func (fs FacilityStatus) IsEnum() bool`. -/
def FacilityStatus.IsEnum (_fs : FacilityStatus) : Bool := true

/-- Go `func (at AccessType) IsEnum() bool`. -/
def AccessType.IsEnum (_at : AccessType) : Bool := true

/-- Go `func (tbs TypicalBatchSize) Enum() []TypicalBatchSize`. -/
def TypicalBatchSize.Enum (_tbs : TypicalBatchSize) : List TypicalBatchSize := []

/-- Go `func (tbs TypicalBatchSize) EnumOptions() []string`. -/
def TypicalBatchSize.EnumOptions (_tbs : TypicalBatchSize) : List GoString := []

/-- Go `func (s Skill) Enum() []Skill`. -/
def Skill.Enum (_s : Skill) : List Skill := []

/-- Go `func (s Skill) EnumOptions() []string`. -/
def Skill.EnumOptions (_s : Skill) : List GoString := []

/-- Go `func (c Certification) Enum() []Certification`. -/
def Certification.Enum (_c : Certification) : List Certification := []

/-- Go `func (c Certification) EnumOptions() []string`. -/
def Certification.EnumOptions (_c : Certification) : List GoString := []

/-- The methods declared in the package, in source order. -/
def methods : Methods := [
  ("FacilityStatus", "IsEnum"),
  ("AccessType", "IsEnum"),
  ("TypicalBatchSize", "Enum"),
  ("TypicalBatchSize", "EnumOptions"),
  ("Skill", "Enum"),
  ("Skill", "EnumOptions"),
  ("Certification", "Enum"),
  ("Certification", "EnumOptions")]

/-- Go `type What3Words struct`. -/
structure What3Words where
  Coordinates : GoString
  Language : GoString
  deriving DecidableEq

/-- The zero value of `What3Words`. -/
def What3Words.zero : okt.What3Words :=
  {
    Coordinates := [],
    Language := [] }

/-- Go `type Address struct`. -/
structure Address where
  Number : GoString
  Street : GoString
  District : GoString
  City : GoString
  Region : GoString
  Country : GoString
  Postcode : GoString
  deriving DecidableEq

/-- The zero value of `Address`. -/
def Address.zero : okt.Address :=
  {
    Number := [],
    Street := [],
    District := [],
    City := [],
    Region := [],
    Country := [],
    Postcode := [] }

/-- Go `type GPS struct`. -/
structure GPS where
  Latitude : Float64
  Longitude : Float64
  deriving DecidableEq

/-- The zero value of `GPS`. -/
def GPS.zero : okt.GPS :=
  {
    Latitude := ⟨0⟩,
    Longitude := ⟨0⟩ }

/-- Go `type Location struct`. -/
structure Location where
  Address : okt.Address
  GPS : okt.GPS
  Directions : GoString
  What3Words : GoString
  deriving DecidableEq

/-- The zero value of `Location`. -/
def Location.zero : okt.Location :=
  {
    Address := okt.Address.zero,
    GPS := okt.GPS.zero,
    Directions := [],
    What3Words := [] }

/-- Go `type Contact struct`. -/
structure Contact where
  Landline : GoString
  Mobile : GoString
  Fax : GoString
  Email : GoString
  WhatsApp : GoString
  deriving DecidableEq

/-- The zero value of `Contact`. -/
def Contact.zero : okt.Contact :=
  {
    Landline := [],
    Mobile := [],
    Fax := [],
    Email := [],
    WhatsApp := [] }

/-- Go `type SocialMedia struct`. -/
structure SocialMedia where
  Facebook : GoString
  Twitter : GoString
  Instagram : GoString
  OtherURLs : Slice GoString
  deriving DecidableEq

/-- The zero value of `SocialMedia`. -/
def SocialMedia.zero : okt.SocialMedia :=
  {
    Facebook := [],
    Twitter := [],
    Instagram := [],
    OtherURLs := none }

/-- Go `type Agent struct`. -/
structure Agent where
  Name : GoString
  Location : okt.Location
  ContactPerson : GoString
  Contact : okt.Contact
  Website : GoString
  SocialMedia : okt.SocialMedia
  deriving DecidableEq

/-- The zero value of `Agent`. -/
def Agent.zero : okt.Agent :=
  {
    Name := [],
    Location := okt.Location.zero,
    ContactPerson := [],
    Contact := okt.Contact.zero,
    Website := [],
    SocialMedia := okt.SocialMedia.zero }

/-- Go `type Equipment struct`. -/
structure Equipment where
  EquipmentType : GoString
  ManufacturingProcess : GoString
  Make : GoString
  Model : GoString
  SerialNumber : GoString
  Location : okt.Location
  SkillsRequired : Slice okt.Skill
  Condition : GoString
  deriving DecidableEq

/-- The zero value of `Equipment`. -/
def Equipment.zero : okt.Equipment :=
  {
    EquipmentType := [],
    ManufacturingProcess := [],
    Make := [],
    Model := [],
    SerialNumber := [],
    Location := okt.Location.zero,
    SkillsRequired := none,
    Condition := [] }

/-- Go `type Material struct`. -/
structure Material where
  MaterialType : GoString
  Manufacturer : GoString
  Brand : GoString
  SupplierLocation : okt.Location
  deriving DecidableEq

/-- The zero value of `Material`. -/
def Material.zero : okt.Material :=
  {
    MaterialType := [],
    Manufacturer := [],
    Brand := [],
    SupplierLocation := okt.Location.zero }

/-- Go `type CustomerReview struct`. -/
structure CustomerReview where
  Identifier : GoString
  Rating : Int
  Body : GoString
  deriving DecidableEq

/-- The zero value of `CustomerReview`. -/
def CustomerReview.zero : okt.CustomerReview :=
  {
    Identifier := [],
    Rating := 0,
    Body := [] }

/-- Go `type QuantitativeValue struct`. -/
structure QuantitativeValue where
  MaxValue : Int
  MinValue : Int
  UnitCode : GoString
  UnitText : GoString
  Value : GoString
  ValueReference : GoString
  deriving DecidableEq

/-- The zero value of `QuantitativeValue`. -/
def QuantitativeValue.zero : okt.QuantitativeValue :=
  {
    MaxValue := 0,
    MinValue := 0,
    UnitCode := [],
    UnitText := [],
    Value := [],
    ValueReference := [] }

/-- Go `type Vehicle struct`. -/
structure Vehicle where
  AcclerationTime : okt.QuantitativeValue
  BodyType : GoString
  CargoVolume : okt.QuantitativeValue
  deriving DecidableEq

/-- The zero value of `Vehicle`. -/
def Vehicle.zero : okt.Vehicle :=
  {
    AcclerationTime := okt.QuantitativeValue.zero,
    BodyType := [],
    CargoVolume := okt.QuantitativeValue.zero }

/-- Go `type OKT struct`. -/
structure OKT where
  Name : GoString
  Description : GoString
  Location : okt.Location
  Owner : okt.Agent
  Contact : okt.Agent
  Affiliations : Slice okt.Agent
  FacilityStatus : okt.FacilityStatus
  OpeningHours : GoString
  Vehicles : Slice okt.Vehicle
  Services : Slice okt.Service
  AreasOfService : Slice okt.GeoShape
  Permits : Slice okt.Permit
  DateFounded : GoString
  Equipment : okt.Equipment
  TypicalMaterials : Slice okt.Material
  Certifications : Slice okt.Certification
  CustomerReviews : Slice okt.CustomerReview
  deriving DecidableEq

/-- The zero value of `OKT`. -/
def OKT.zero : okt.OKT :=
  {
    Name := [],
    Description := [],
    Location := okt.Location.zero,
    Owner := okt.Agent.zero,
    Contact := okt.Agent.zero,
    Affiliations := none,
    FacilityStatus := okt.FacilityStatus.zero,
    OpeningHours := [],
    Vehicles := none,
    Services := none,
    AreasOfService := none,
    Permits := none,
    DateFounded := [],
    Equipment := okt.Equipment.zero,
    TypicalMaterials := none,
    Certifications := none,
    CustomerReviews := none }

/-- The type declarations of the package, in source order, with the struct tags. -/
def decls : Decls := [
  ("OKT", .struct [
    ⟨"Name", .string, [("yaml", "name"), ("daml", "name"), ("json", "name"), ("validate", "required")]⟩,
    ⟨"Description", .string, [("yaml", "description"), ("daml", "description"), ("json", "description")]⟩,
    ⟨"Location", (.named "Location"), [("yaml", "location"), ("daml", "location"), ("json", "location"), ("validate", "required")]⟩,
    ⟨"Owner", (.named "Agent"), [("yaml", "owner"), ("daml", "owner"), ("json", "owner")]⟩,
    ⟨"Contact", (.named "Agent"), [("yaml", "contact"), ("daml", "contact"), ("json", "contact"), ("validate", "required")]⟩,
    ⟨"Affiliations", (.slice (.named "Agent")), [("yaml", "affiliations"), ("daml", "affiliations"), ("json", "affiliations")]⟩,
    ⟨"FacilityStatus", (.named "FacilityStatus"), [("yaml", "facility_status"), ("daml", "facility_status"), ("json", "facility_status")]⟩,
    ⟨"OpeningHours", .string, [("yaml", "opening_hours"), ("daml", "opening_hours"), ("json", "opening_hours")]⟩,
    ⟨"Vehicles", (.slice (.named "Vehicle")), [("yaml", "vehicles"), ("daml", "vehicles"), ("json", "vehicles")]⟩,
    ⟨"Services", (.slice (.named "Service")), [("yaml", "services"), ("daml", "services"), ("json", "services")]⟩,
    ⟨"AreasOfService", (.slice (.named "GeoShape")), [("yaml", "areasOfService"), ("daml", "areasOfService"), ("json", "areasOfService")]⟩,
    ⟨"Permits", (.slice (.named "Permit")), [("yaml", "permits"), ("daml", "permits"), ("json", "permits")]⟩,
    ⟨"DateFounded", .string, [("yaml", "date_founded"), ("daml", "date_founded"), ("json", "date_founded")]⟩,
    ⟨"Equipment", (.named "Equipment"), [("yaml", "equipment"), ("daml", "equipment"), ("json", "equipment")]⟩,
    ⟨"TypicalMaterials", (.slice (.named "Material")), [("yaml", "typical_materials"), ("daml", "typical_materials"), ("json", "typical_materials")]⟩,
    ⟨"Certifications", (.slice (.named "Certification")), [("yaml", "certifications"), ("daml", "certifications"), ("json", "certifications")]⟩,
    ⟨"CustomerReviews", (.slice (.named "CustomerReview")), [("yaml", "customer_reviews"), ("daml", "customer_reviews"), ("json", "customer_reviews")]⟩]),
  ("FacilityStatus", .defined (.string)),
  ("AccessType", .defined (.string)),
  ("TypicalBatchSize", .defined (.string)),
  ("Location", .struct [
    ⟨"Address", (.named "Address"), [("yaml", "address"), ("daml", "address"), ("json", "address")]⟩,
    ⟨"GPS", (.named "GPS"), [("yaml", "gps"), ("daml", "gps"), ("json", "gps")]⟩,
    ⟨"Directions", .string, [("yaml", "directions"), ("daml", "directions"), ("json", "directions")]⟩,
    ⟨"What3Words", .string, [("yaml", "what_3_words"), ("daml", "what_3_words"), ("json", "what_3_words")]⟩]),
  ("What3Words", .struct [
    ⟨"Coordinates", .string, [("yaml", "coordinates"), ("daml", "coordinates"), ("json", "coordinates"), ("validate", "what3words")]⟩,
    ⟨"Language", .string, [("yaml", "language"), ("daml", "language"), ("json", "language")]⟩]),
  ("Address", .struct [
    ⟨"Number", .string, [("yaml", "number"), ("daml", "number"), ("json", "number")]⟩,
    ⟨"Street", .string, [("yaml", "street"), ("daml", "street"), ("json", "street")]⟩,
    ⟨"District", .string, [("yaml", "district"), ("daml", "district"), ("json", "district")]⟩,
    ⟨"City", .string, [("yaml", "city"), ("daml", "city"), ("json", "city")]⟩,
    ⟨"Region", .string, [("yaml", "region"), ("daml", "region"), ("json", "region")]⟩,
    ⟨"Country", .string, [("yaml", "country"), ("daml", "country"), ("json", "country")]⟩,
    ⟨"Postcode", .string, [("yaml", "postcode"), ("daml", "postcode"), ("json", "postcode")]⟩]),
  ("GPS", .struct [
    ⟨"Latitude", .float64, [("yaml", "latitude"), ("daml", "latitude"), ("json", "latitude")]⟩,
    ⟨"Longitude", .float64, [("yaml", "longitude"), ("daml", "longitude"), ("json", "logitude")]⟩]),
  ("Agent", .struct [
    ⟨"Name", .string, [("yaml", "name"), ("daml", "name"), ("json", "name"), ("validate", "required")]⟩,
    ⟨"Location", (.named "Location"), [("yaml", "location"), ("daml", "location"), ("json", "location")]⟩,
    ⟨"ContactPerson", .string, [("yaml", "contact_person"), ("daml", "contact_person"), ("json", "contact_person")]⟩,
    ⟨"Contact", (.named "Contact"), [("yaml", "contact"), ("daml", "contact"), ("json", "contact")]⟩,
    ⟨"Website", .string, [("yaml", "website"), ("daml", "website"), ("json", "website")]⟩,
    ⟨"SocialMedia", (.named "SocialMedia"), [("yaml", "social_media"), ("daml", "social_media"), ("json", "social_media")]⟩]),
  ("URL", .defined (.external "url" "URL")),
  ("Contact", .struct [
    ⟨"Landline", .string, [("yaml", "landline"), ("daml", "landline"), ("json", "landline")]⟩,
    ⟨"Mobile", .string, [("yaml", "mobile"), ("daml", "mobile"), ("json", "mobile")]⟩,
    ⟨"Fax", .string, [("yaml", "fax"), ("daml", "fax"), ("json", "fax")]⟩,
    ⟨"Email", .string, [("yaml", "email"), ("daml", "email"), ("json", "email")]⟩,
    ⟨"WhatsApp", .string, [("yaml", "whatsapp"), ("daml", "whatsapp"), ("json", "whatsapp")]⟩]),
  ("SocialMedia", .struct [
    ⟨"Facebook", .string, [("yaml", "landline"), ("daml", "landline"), ("json", "landline")]⟩,
    ⟨"Twitter", .string, [("yaml", "twitter"), ("daml", "twitter"), ("json", "twitter")]⟩,
    ⟨"Instagram", .string, [("yaml", "instagram"), ("daml", "instagram"), ("json", "instagram")]⟩,
    ⟨"OtherURLs", (.slice (.string)), [("yaml", "other_urls"), ("daml", "other_urls"), ("json", "other_urls")]⟩]),
  ("Skill", .defined (.string)),
  ("Equipment", .struct [
    ⟨"EquipmentType", .string, [("yaml", "equipment_type"), ("daml", "equipment_type"), ("json", "equipment_type")]⟩,
    ⟨"ManufacturingProcess", .string, [("yaml", "manufacturing_process"), ("daml", "manufacturing_process"), ("json", "manufacturing_process")]⟩,
    ⟨"Make", .string, [("yaml", "make"), ("daml", "make"), ("json", "make")]⟩,
    ⟨"Model", .string, [("yaml", "model"), ("daml", "model"), ("json", "model")]⟩,
    ⟨"SerialNumber", .string, [("yaml", "serial_number"), ("daml", "serial_number"), ("json", "serial_number")]⟩,
    ⟨"Location", (.named "Location"), [("yaml", "location"), ("daml", "location"), ("json", "location")]⟩,
    ⟨"SkillsRequired", (.slice (.named "Skill")), [("yaml", "skills_required"), ("daml", "skills_required"), ("json", "skills_required")]⟩,
    ⟨"Condition", .string, [("yaml", "condition"), ("daml", "condition"), ("json", "condition")]⟩]),
  ("Material", .struct [
    ⟨"MaterialType", .string, [("yaml", "material_type"), ("daml", "material_type"), ("json", "material_type")]⟩,
    ⟨"Manufacturer", .string, []⟩,
    ⟨"Brand", .string, []⟩,
    ⟨"SupplierLocation", (.named "Location"), []⟩]),
  ("Service", .defined (.emptyInterface)),
  ("GeoShape", .defined (.emptyInterface)),
  ("Permit", .defined (.emptyInterface)),
  ("Certification", .defined (.string)),
  ("CustomerReview", .struct [
    ⟨"Identifier", .string, [("yaml", "indentifier"), ("daml", "indentifier"), ("json", "indentifier")]⟩,
    ⟨"Rating", .int, [("yaml", "rating"), ("daml", "rating"), ("json", "rating"), ("validate", "gte=1,lte=5")]⟩,
    ⟨"Body", .string, [("yaml", "body"), ("daml", "body"), ("json", "body")]⟩]),
  ("QuantitativeValue", .struct [
    ⟨"MaxValue", .int, [("yaml", "maxValue"), ("daml", "maxValue"), ("json", "maxValue")]⟩,
    ⟨"MinValue", .int, [("yaml", "minValue"), ("daml", "minValue"), ("json", "minValue")]⟩,
    ⟨"UnitCode", .string, [("yaml", "unitCode"), ("daml", "unitCode"), ("json", "unitCode")]⟩,
    ⟨"UnitText", .string, [("yaml", "unitText"), ("daml", "unitText"), ("json", "unitText")]⟩,
    ⟨"Value", .string, [("yaml", "value"), ("daml", "value"), ("json", "value")]⟩,
    ⟨"ValueReference", .string, [("yaml", "valueReference"), ("daml", "valueReference"), ("json", "valueReference")]⟩]),
  ("Vehicle", .struct [
    ⟨"AcclerationTime", (.named "QuantitativeValue"), [("yaml", "accelerationTime"), ("daml", "accelerationTime"), ("json", "accelerationTime")]⟩,
    ⟨"BodyType", .string, [("yaml", "bodyType"), ("daml", "bodyType"), ("json", "bodyType")]⟩,
    ⟨"CargoVolume", (.named "QuantitativeValue"), [("yaml", "cargoVolume"), ("daml", "cargoVolume"), ("json", "cargoVolume")]⟩])]

/-- A value boxed in `interface{}` by `TypeMap`: one case per dynamic type. -/
inductive Any where
  | FacilityStatus (v : okt.FacilityStatus)
  | Location (v : okt.Location)
  | What3Words (v : okt.What3Words)
  | Address (v : okt.Address)
  | GPS (v : okt.GPS)
  | Agent (v : okt.Agent)
  | URL (v : okt.URL)
  | Contact (v : okt.Contact)
  | SocialMedia (v : okt.SocialMedia)
  | Skill (v : okt.Skill)
  | Equipment (v : okt.Equipment)
  | sliceVehicle (v : Slice okt.Vehicle)
  | Material (v : okt.Material)
  | sliceService (v : Slice okt.Service)
  | slicePermit (v : Slice okt.Permit)
  | sliceGeoShape (v : Slice okt.GeoShape)
  | Certification (v : okt.Certification)
  deriving DecidableEq

/-- The dynamic type of a boxed value. -/
def Any.type : Any → GoType
  | .FacilityStatus _ => .named "FacilityStatus"
  | .Location _ => .named "Location"
  | .What3Words _ => .named "What3Words"
  | .Address _ => .named "Address"
  | .GPS _ => .named "GPS"
  | .Agent _ => .named "Agent"
  | .URL _ => .named "URL"
  | .Contact _ => .named "Contact"
  | .SocialMedia _ => .named "SocialMedia"
  | .Skill _ => .named "Skill"
  | .Equipment _ => .named "Equipment"
  | .sliceVehicle _ => .slice (.named "Vehicle")
  | .Material _ => .named "Material"
  | .sliceService _ => .slice (.named "Service")
  | .slicePermit _ => .slice (.named "Permit")
  | .sliceGeoShape _ => .slice (.named "GeoShape")
  | .Certification _ => .named "Certification"

/-- Go `func TypeMap() map[string]interface{}`: the entries of the map literal
in source order (the keys of a map literal are pairwise distinct). A composite
literal `T{}` without fields and a conversion `T("")` are the zero value; a
slice literal `[]T{}` is the empty, non-nil slice. -/
def TypeMap : List (String × Any) := [
  ("FacilityStatus", .FacilityStatus FacilityStatus.zero),
  ("Location", .Location Location.zero),
  ("What3Words", .What3Words What3Words.zero),
  ("Address", .Address Address.zero),
  ("GPS", .GPS GPS.zero),
  ("Agent", .Agent Agent.zero),
  ("URL", .URL URL.zero),
  ("Contact", .Contact Contact.zero),
  ("SocialMedia", .SocialMedia SocialMedia.zero),
  ("Skill", .Skill Skill.zero),
  ("Equipment", .Equipment Equipment.zero),
  ("Vehicles", .sliceVehicle (some [])),
  ("Material", .Material Material.zero),
  ("Services", .sliceService (some [])),
  ("Permits", .slicePermit (some [])),
  ("AreasOfService", .sliceGeoShape (some [])),
  ("Certification", .Certification Certification.zero)]

/-- The keys of the type-map. -/
def TypeMapKeys : List String := TypeMap.map Prod.fst

/-- The function `Sample` registers under the tag `what3words`:
`len(strings.Split(fl.Field().String(), ".")) == 3`, on the field's string. -/
def what3words (field : GoString) : Bool :=
  (strings.Split field dot).length == 3

end okt

/-! ## Package `path/filepath` (standard library, Unix separators) -/

namespace filepath

/-- Go `filepath.Separator` on Unix: the byte `/`. -/
def Separator : UInt8 := 0x2F

/-- The element loop of Go `filepath.Clean`, on the elements between
separators: an empty element and `.` are dropped; `..` removes the element
before it, is dropped at the root of a rooted path, and is kept when nothing
is left to remove; any other element is kept. The output is held reversed. -/
def cleanElems (rooted : Bool) : List GoString → List GoString → List GoString
  | [], out => out.reverse
  | e :: rest, out =>
    if e = [] ∨ e = [dot] then cleanElems rooted rest out
    else if e = [dot, dot] then
      match out with
      | top :: below =>
        if top = [dot, dot] then cleanElems rooted rest (e :: out)
        else cleanElems rooted rest below
      | [] => if rooted then cleanElems rooted rest [] else cleanElems rooted rest [e]
    else cleanElems rooted rest (e :: out)

/-- Go `filepath.Clean(path)`: the shortest path name equivalent to `path` by
purely lexical processing; the empty path becomes `.`. -/
def Clean (path : GoString) : GoString :=
  let rooted := path.head? = some Separator
  let elems := cleanElems rooted (strings.Split path Separator) []
  let out := (if rooted then [Separator] else []) ++ [Separator].intercalate elems
  if out = [] then [dot] else out

/-- Go `filepath.Join(elem...)`: the elements from the first non-empty one on
are joined with the separator and the result is cleaned; the result is empty
when every element is empty. -/
def Join (elem : List GoString) : GoString :=
  match elem.dropWhile (fun e => e.isEmpty) with
  | [] => []
  | rest => Clean ([Separator].intercalate rest)

end filepath

/-! ## Package `validator.v9`: the rules the struct tags name -/

namespace validator

/-- The rule `required` on a string field: the value is not the empty string. -/
def required (field : GoString) : Bool := !field.isEmpty

/-- Splits a list of characters at every occurrence of `sep`. -/
def splitChars (sep : Char) : List Char → List (List Char)
  | [] => [[]]
  | c :: rest =>
    if c = sep then [] :: splitChars sep rest
    else
      match splitChars sep rest with
      | [] => [[c]]
      | w :: ws => (c :: w) :: ws

/-- A decimal parameter of a rule (`asInt`); `none` when it is not a number. -/
def asInt (param : List Char) : Option Int :=
  if param.isEmpty ∨ ¬ param.all Char.isDigit then none
  else some (Int.ofNat (param.foldl (fun n c => 10 * n + (c.toNat - 48)) 0))

/-- The rules of a `validate` tag: the tag is split at `,` and every rule at
`=` into its name and its parameter. -/
def parseTag (tag : String) : List (String × List Char) :=
  (splitChars ',' tag.toList).map fun rule =>
    match splitChars '=' rule with
    | [] => ("", [])
    | name :: params => (String.mk name, ['='].intercalate params)

/-- One rule on an `int` field: `gte=p` is `field.Int() >= p`, `lte=p` is
`field.Int() <= p`; `none` stands for a rule this model does not cover or a
parameter that is not a number. -/
def checkInt (rule : String × List Char) (field : Int) : Option Bool :=
  if rule.1 = "gte" then (asInt rule.2).map (fun p => decide (p ≤ field))
  else if rule.1 = "lte" then (asInt rule.2).map (fun p => decide (field ≤ p))
  else none

/-- An `int` field passes its `validate` tag when it passes every rule of it. -/
def validInt (tag : String) (field : Int) : Bool :=
  (parseTag tag).all (fun rule => checkInt rule field == some true)

end validator

/-- The `validate` rules the declared structs carry, as triples of struct
name, field name and rule, in source order. -/
def Decls.validateRules (ds : Decls) : List (String × String × String) :=
  ds.flatMap fun d =>
    match d.2 with
    | .struct fs => fs.filterMap (fun f => (f.tagLookup "validate").map (fun r => (d.1, f.name, r)))
    | .defined _ => []

/-! ## Effects of the sample generators -/

/-- A Go `error`, kept as its message. -/
abbrev GoError := GoString

/-- The three serializers: `yaml.Marshal`, `json.Marshal`, `daml.Marshal`. -/
inductive Format where
  | yaml
  | json
  | daml
  deriving DecidableEq, Repr

/-- What a run of a sample generator does, in order. -/
inductive Event where
  | registerValidation (tag : String)
  | printf (format : GoString) (arg : Bool)
  | marshal (format : Format)
  | writeFile (filename : GoString) (content : GoString) (err : Option GoError)
  | fatalf (err : GoError)
  deriving DecidableEq

/-- How a run ends: the function returns, or `log.Fatalf` ends the process
with `os.Exit(1)`. -/
inductive Exit where
  | returned
  | exited (code : Nat)
  deriving DecidableEq, Repr

/-- The serializers of a record type, as functions of the record; `daml.Marshal`
also receives the type-map. -/
structure Marshallers (Record : Type) (Boxed : Type) where
  yaml : Record → Except GoError GoString
  json : Record → Except GoError GoString
  daml : Record → List (String × Boxed) → Except GoError GoString

/-- Go `ioutil.WriteFile(filename, content, 0644)` on a file system of type
`σ`: the new file system and the error, `none` when the write succeeded. -/
abbrev WriteFile (σ : Type) := σ → GoString → GoString → σ × Option GoError

/-- The result of a run: the events in order, the file system and the exit. -/
structure Run (σ : Type) where
  events : List Event
  fs : σ
  exit : Exit

/-- The file names the writes of a run name, in order. -/
def Run.targets {σ : Type} (r : Run σ) : List GoString :=
  r.events.filterMap fun e =>
    match e with
    | .writeFile filename _ _ => some filename
    | _ => none

/-- An event without the outcome of the write it records. -/
def Event.attempt : Event → Event
  | .writeFile filename content _ => .writeFile filename content none
  | e => e

/-- The operations a run attempts, in order, whatever the writes returned. -/
def Run.attempts {σ : Type} (r : Run σ) : List Event := r.events.map Event.attempt

/-! ## Package `okw`: zero values of boxed values and the sample generator -/

namespace okw

/-- The zero value of the dynamic type of a boxed value. -/
def Any.zero : Any → Any
  | .FacilityStatus _ => .FacilityStatus FacilityStatus.zero
  | .AccessType _ => .AccessType AccessType.zero
  | .TypicalBatchSize _ => .TypicalBatchSize TypicalBatchSize.zero
  | .Location _ => .Location Location.zero
  | .What3Words _ => .What3Words What3Words.zero
  | .Address _ => .Address Address.zero
  | .GPS _ => .GPS GPS.zero
  | .Agent _ => .Agent Agent.zero
  | .URL _ => .URL URL.zero
  | .Contact _ => .Contact Contact.zero
  | .SocialMedia _ => .SocialMedia SocialMedia.zero
  | .Skill _ => .Skill Skill.zero
  | .Equipment _ => .Equipment Equipment.zero
  | .EquipmentProperties _ => .EquipmentProperties EquipmentProperties.zero
  | .Material _ => .Material Material.zero
  | .MaterialType _ => .MaterialType MaterialType.zero
  | .CircularEconomy _ => .CircularEconomy CircularEconomy.zero
  | .HumanCapacity _ => .HumanCapacity HumanCapacity.zero
  | .InnovationSpace _ => .InnovationSpace InnovationSpace.zero
  | .LearningResource _ => .LearningResource LearningResource.zero
  | .CustomerReview _ => .CustomerReview CustomerReview.zero
  | .Certification _ => .Certification Certification.zero

/-- The record `Sample` builds:
`OKW{Contact: Agent{Name: "Some Person", Website: "https://example.com"}}`;
the fields a composite literal does not name hold their zero value. -/
def sampleRecord : OKW :=
  { OKW.zero with
    Contact := { Agent.zero with
      Name := utf8 "Some Person",
      Website := utf8 "https://example.com" } }

/-- Go `func writeFile(filename string, content []byte) error`. -/
def writeFile {σ : Type} (w : WriteFile σ) (fs : σ) (filename content : GoString) :
    σ × Option GoError :=
  w fs filename content

/-- Go `func Sample(outputDir string)`. The validation function is registered
and never run; `log.Printf` prints whether `Active` has a method `Enum`; every
`Marshal` error ends the process through `log.Fatalf`; the error `writeFile`
returns is not used. -/
def Sample {σ : Type} (m : Marshallers OKW Any) (w : WriteFile σ) (outputDir : GoString)
    (fs : σ) : Run σ :=
  let pre : List Event :=
    [.registerValidation "what3words",
     .printf (utf8 "Is Enum?: %s") (methods.has "FacilityStatus" "Enum")]
  let okw := sampleRecord
  match m.yaml okw with
  | .error err => ⟨pre ++ [.marshal .yaml, .fatalf err], fs, .exited 1⟩
  | .ok yamlSample =>
    let f1 := filepath.Join [outputDir, utf8 "okw.yaml"]
    let r1 := writeFile w fs f1 yamlSample
    match m.json okw with
    | .error err =>
      ⟨pre ++ [.marshal .yaml, .writeFile f1 yamlSample r1.2, .marshal .json, .fatalf err],
        r1.1, .exited 1⟩
    | .ok jsonSample =>
      let f2 := filepath.Join [outputDir, utf8 "okw.json"]
      let r2 := writeFile w r1.1 f2 jsonSample
      match m.daml okw TypeMap with
      | .error err =>
        ⟨pre ++ [.marshal .yaml, .writeFile f1 yamlSample r1.2, .marshal .json,
            .writeFile f2 jsonSample r2.2, .marshal .daml, .fatalf err],
          r2.1, .exited 1⟩
      | .ok damlSample =>
        let f3 := filepath.Join [outputDir, utf8 "src/main/daml/OKW.daml"]
        let r3 := writeFile w r2.1 f3 damlSample
        ⟨pre ++ [.marshal .yaml, .writeFile f1 yamlSample r1.2, .marshal .json,
            .writeFile f2 jsonSample r2.2, .marshal .daml, .writeFile f3 damlSample r3.2],
          r3.1, .returned⟩

end okw

/-! ## Package `okt`: zero values of boxed values and the sample generator -/

namespace okt

/-- The zero value of the dynamic type of a boxed value; the zero value of a
slice type is the nil slice. -/
def Any.zero : Any → Any
  | .FacilityStatus _ => .FacilityStatus FacilityStatus.zero
  | .Location _ => .Location Location.zero
  | .What3Words _ => .What3Words What3Words.zero
  | .Address _ => .Address Address.zero
  | .GPS _ => .GPS GPS.zero
  | .Agent _ => .Agent Agent.zero
  | .URL _ => .URL URL.zero
  | .Contact _ => .Contact Contact.zero
  | .SocialMedia _ => .SocialMedia SocialMedia.zero
  | .Skill _ => .Skill Skill.zero
  | .Equipment _ => .Equipment Equipment.zero
  | .sliceVehicle _ => .sliceVehicle none
  | .Material _ => .Material Material.zero
  | .sliceService _ => .sliceService none
  | .slicePermit _ => .slicePermit none
  | .sliceGeoShape _ => .sliceGeoShape none
  | .Certification _ => .Certification Certification.zero

/-- The record `Sample` builds:
`OKT{Contact: Agent{Name: "Some Person", Website: "https://example.com"}}`;
the fields a composite literal does not name hold their zero value. -/
def sampleRecord : OKT :=
  { OKT.zero with
    Contact := { Agent.zero with
      Name := utf8 "Some Person",
      Website := utf8 "https://example.com" } }

/-- Go `func writeFile(filename string, content []byte) error`. -/
def writeFile {σ : Type} (w : WriteFile σ) (fs : σ) (filename content : GoString) :
    σ × Option GoError :=
  w fs filename content

/-- Go `func Sample(outputDir string)`. The validation function is registered
and never run; every `Marshal` error ends the process through `log.Fatalf`; the
error `writeFile` returns is not used. -/
def Sample {σ : Type} (m : Marshallers OKT Any) (w : WriteFile σ) (outputDir : GoString)
    (fs : σ) : Run σ :=
  let pre : List Event := [.registerValidation "what3words"]
  let okt := sampleRecord
  match m.yaml okt with
  | .error err => ⟨pre ++ [.marshal .yaml, .fatalf err], fs, .exited 1⟩
  | .ok yamlSample =>
    let f1 := filepath.Join [outputDir, utf8 "okt.yaml"]
    let r1 := writeFile w fs f1 yamlSample
    match m.json okt with
    | .error err =>
      ⟨pre ++ [.marshal .yaml, .writeFile f1 yamlSample r1.2, .marshal .json, .fatalf err],
        r1.1, .exited 1⟩
    | .ok jsonSample =>
      let f2 := filepath.Join [outputDir, utf8 "okt.json"]
      let r2 := writeFile w r1.1 f2 jsonSample
      match m.daml okt TypeMap with
      | .error err =>
        ⟨pre ++ [.marshal .yaml, .writeFile f1 yamlSample r1.2, .marshal .json,
            .writeFile f2 jsonSample r2.2, .marshal .daml, .fatalf err],
          r2.1, .exited 1⟩
      | .ok damlSample =>
        let f3 := filepath.Join [outputDir, utf8 "src/main/daml/OKT.daml"]
        let r3 := writeFile w r2.1 f3 damlSample
        ⟨pre ++ [.marshal .yaml, .writeFile f1 yamlSample r1.2, .marshal .json,
            .writeFile f2 jsonSample r2.2, .marshal .daml, .writeFile f3 damlSample r3.2],
          r3.1, .returned⟩

end okt

/-! ## Package `main` (templates/main.go) -/

namespace templates

/-- Go `func main()`: `okw.Sample("samples/okw")`, then
`okt.Sample("samples/okt")` unless the first call ended the process. -/
def main {σ : Type} (mw : Marshallers okw.OKW okw.Any) (mt : Marshallers okt.OKT okt.Any)
    (w : WriteFile σ) (fs : σ) : Run σ :=
  let r1 := okw.Sample mw w (utf8 "samples/okw") fs
  match r1.exit with
  | .exited code => ⟨r1.events, r1.fs, .exited code⟩
  | .returned =>
    let r2 := okt.Sample mt w (utf8 "samples/okt") r1.fs
    ⟨r1.events ++ r2.events, r2.fs, r2.exit⟩

end templates

/-! ## A file system and serializers to run the generators on -/

/-- A file system in memory: the files written, the latest first. -/
abbrev MemFS := List (GoString × GoString)

/-- A write that succeeds and records the file. -/
def memWrite : WriteFile MemFS :=
  fun fs filename content => ((filename, content) :: fs, none)

/-- A write that fails and leaves the file system as it is, as for a missing
directory. -/
def failWrite : WriteFile MemFS :=
  fun fs _ _ => (fs, some (utf8 "no such file or directory"))

/-- Serializers that succeed on every record. -/
def okMarshallers (Record Boxed : Type) : Marshallers Record Boxed :=
  { yaml := fun _ => .ok (utf8 "yaml"),
    json := fun _ => .ok (utf8 "json"),
    daml := fun _ _ => .ok (utf8 "daml") }

/-- Serializers of which the JSON one fails. -/
def jsonFailing (Record Boxed : Type) : Marshallers Record Boxed :=
  { yaml := fun _ => .ok (utf8 "yaml"),
    json := fun _ => .error (utf8 "json: unsupported value"),
    daml := fun _ _ => .ok (utf8 "daml") }

/-! ## Interface values, type assertions and `MarshallJSON` -/

/-- The run-time panic of a failed type assertion `i.(T)`:
"interface conversion: interface {} is D, not T", with the dynamic type `D` of
the interface value and the asserted type `T`. -/
structure TypeAssertionError where
  dynamic : GoType
  asserted : GoType
  deriving DecidableEq, Repr

/-- How a call that may panic ends. -/
inductive Outcome (α : Type) where
  | returned (v : α)
  | panicked (e : TypeAssertionError)

/-- An interface value that holds a value whose underlying type is the struct
`url.URL`: the dynamic type and the value. -/
structure BoxedURL where
  type : GoType
  val : url.URL
  deriving DecidableEq

/-- Go `i.(T)` for a concrete type `T`: the value held when the dynamic type of
`i` is identical to `T`, a run-time panic otherwise. A defined type is
identical to no other type, however it is defined. -/
def typeAssert (i : BoxedURL) (T : GoType) : Outcome url.URL :=
  if i.type = T then .returned i.val else .panicked ⟨i.type, T⟩

namespace okw

/-- Go `interface{}(u)` for `u` of type `URL`: the dynamic type is the defined
type `URL` of the package. -/
def URL.box (u : okw.URL) : BoxedURL := ⟨.named "URL", u.val⟩

/-- Go `func MarshallJSON(u URL) ([]byte, error)`:
`x := interface{}(u).(url.URL)`, then `return []byte(x.String()), nil`.
The method `(url.URL).String` of the standard library is the parameter
`urlString`. -/
def MarshallJSON (urlString : url.URL → GoString) (u : okw.URL) :
    Outcome (GoString × Option GoError) :=
  match typeAssert u.box (.external "url" "URL") with
  | .panicked e => .panicked e
  | .returned x => .returned (urlString x, none)

end okw

namespace okt

/-- Go `interface{}(u)` for `u` of type `URL`: the dynamic type is the defined
type `URL` of the package. -/
def URL.box (u : okt.URL) : BoxedURL := ⟨.named "URL", u.val⟩

/-- Go `func MarshallJSON(u URL) ([]byte, error)`:
`x := interface{}(u).(url.URL)`, then `return []byte(x.String()), nil`.
The method `(url.URL).String` of the standard library is the parameter
`urlString`. -/
def MarshallJSON (urlString : url.URL → GoString) (u : okt.URL) :
    Outcome (GoString × Option GoError) :=
  match typeAssert u.box (.external "url" "URL") with
  | .panicked e => .panicked e
  | .returned x => .returned (urlString x, none)

end okt

/-! ## The calls a writer receives -/

/-- The writer `w` that keeps, next to the file system of `w`, every call it
receives (file name and content), the latest first. -/
def recording {σ : Type} (w : WriteFile σ) : WriteFile (σ × List (GoString × GoString)) :=
  fun s filename content =>
    (((w s.1 filename content).1, (filename, content) :: s.2), (w s.1 filename content).2)

/-- The file system after the writer `w` has received the calls in order. -/
def replay {σ : Type} (w : WriteFile σ) (calls : List (GoString × GoString)) (fs : σ) : σ :=
  calls.foldl (fun s c => (w s c.1 c.2).1) fs

namespace okw

/-- The calls the writer receives in a run of `Sample`, in order, as pairs of
file name and content: what a run with the recording writer has kept. -/
def calls {σ : Type} (m : Marshallers OKW Any) (w : WriteFile σ) (outputDir : GoString)
    (fs : σ) : List (GoString × GoString) :=
  (Sample m (recording w) outputDir (fs, [])).fs.2.reverse

end okw

namespace okt

/-- The calls the writer receives in a run of `Sample`, in order, as pairs of
file name and content: what a run with the recording writer has kept. -/
def calls {σ : Type} (m : Marshallers OKT Any) (w : WriteFile σ) (outputDir : GoString)
    (fs : σ) : List (GoString × GoString) :=
  (Sample m (recording w) outputDir (fs, [])).fs.2.reverse

end okt

namespace templates

/-- The calls the writer receives in a run of `main`, in order. -/
def calls {σ : Type} (mw : Marshallers okw.OKW okw.Any) (mt : Marshallers okt.OKT okt.Any)
    (w : WriteFile σ) (fs : σ) : List (GoString × GoString) :=
  (main mw mt (recording w) (fs, [])).fs.2.reverse

end templates

/-! ## The what3words validator -/

theorem strings_Count_eq_count (s : GoString) (c : UInt8) :
    strings.Count s c = s.count c := by
  induction s with
  | nil => rfl
  | cons b rest ih =>
    by_cases h : b = c
    · subst h
      simp [strings.Count, ih, Nat.add_comm]
    · have h2 : (b == c) = false := by simpa using h
      simp [strings.Count, ih, h, List.count_cons, h2]

theorem strings_Count_le_length (s : GoString) (c : UInt8) :
    strings.Count s c ≤ s.length := by
  rw [strings_Count_eq_count]
  exact List.count_le_length c s

theorem strings_IndexByte_none (s : GoString) (c : UInt8)
    (h : strings.IndexByte s c = none) : strings.Count s c = 0 := by
  induction s with
  | nil => rfl
  | cons b rest ih =>
    by_cases hb : b = c
    · simp [strings.IndexByte, hb] at h
    · simp [strings.IndexByte, hb] at h
      simp [strings.Count, hb, ih h]

theorem strings_IndexByte_some (s : GoString) (c : UInt8) (m : Nat)
    (h : strings.IndexByte s c = some m) :
    strings.Count s c = strings.Count (s.drop (m + 1)) c + 1 := by
  induction s generalizing m with
  | nil => simp [strings.IndexByte] at h
  | cons b rest ih =>
    by_cases hb : b = c
    · simp [strings.IndexByte, hb] at h
      subst h
      simp [strings.Count, hb, Nat.add_comm]
    · simp [strings.IndexByte, hb] at h
      obtain ⟨k, hk, rfl⟩ := h
      simp [strings.Count, hb, ih k hk]

theorem strings_genSplit_length (c : UInt8) (k : Nat) (s : GoString) :
    (strings.genSplit c k s).length = min k (strings.Count s c) + 1 := by
  induction k generalizing s with
  | zero => simp [strings.genSplit]
  | succ k ih =>
    unfold strings.genSplit
    cases h : strings.IndexByte s c with
    | none => simp [strings_IndexByte_none s c h]
    | some m =>
      simp only [List.length_cons, ih]
      rw [strings_IndexByte_some s c m h]
      omega

/-- The number of segments `strings.Split` returns is the number of separator
bytes plus one. -/
theorem strings_Split_length (s : GoString) (c : UInt8) :
    (strings.Split s c).length = s.count c + 1 := by
  have h := strings_Count_le_length s c
  rw [← strings_Count_eq_count]
  simp only [strings.Split, strings_genSplit_length]
  omega

theorem strings_IndexByte_cut (s : GoString) (c : UInt8) (m : Nat)
    (h : strings.IndexByte s c = some m) :
    s = s.take m ++ c :: s.drop (m + 1) ∧ c ∉ s.take m := by
  induction s generalizing m with
  | nil => simp [strings.IndexByte] at h
  | cons b rest ih =>
    by_cases hb : b = c
    · simp [strings.IndexByte, hb] at h
      subst h
      simp [hb]
    · simp [strings.IndexByte, hb] at h
      obtain ⟨k, hk, rfl⟩ := h
      obtain ⟨h1, h2⟩ := ih k hk
      refine ⟨?_, ?_⟩
      · simp only [List.take_succ_cons, List.drop_succ_cons, List.cons_append]
        rw [← h1]
      · simp only [List.take_succ_cons, List.mem_cons, not_or]
        exact ⟨fun e => hb e.symm, h2⟩

theorem strings_genSplit_ne_nil (c : UInt8) (k : Nat) (s : GoString) :
    strings.genSplit c k s ≠ [] := by
  cases k with
  | zero => simp [strings.genSplit]
  | succ k =>
    unfold strings.genSplit
    cases strings.IndexByte s c <;> simp

theorem strings_genSplit_join (c : UInt8) (k : Nat) (s : GoString) :
    [c].intercalate (strings.genSplit c k s) = s := by
  induction k generalizing s with
  | zero => simp [strings.genSplit, List.intercalate]
  | succ k ih =>
    unfold strings.genSplit
    cases h : strings.IndexByte s c with
    | none => simp [List.intercalate]
    | some m =>
      have hne := strings_genSplit_ne_nil c k (s.drop (m + 1))
      have hj := ih (s.drop (m + 1))
      obtain ⟨hcut, _⟩ := strings_IndexByte_cut s c m h
      cases hg : strings.genSplit c k (s.drop (m + 1)) with
      | nil => exact absurd hg hne
      | cons a l =>
        simp only [List.intercalate] at hj ⊢
        rw [hg] at hj ⊢
        simp only [List.intersperse, List.flatten_cons]
        rw [hj]
        simpa using hcut.symm

/-- Joining the segments `strings.Split` returns with the separator gives the
text back. -/
theorem strings_Split_join (s : GoString) (c : UInt8) :
    [c].intercalate (strings.Split s c) = s :=
  strings_genSplit_join c _ s

/-- C1: in both modules the what3words validator accepts a text exactly when
the text contains exactly two `.` bytes, that is exactly when splitting it on
`.` yields three segments (empty segments counting). -/
theorem what3words_iff_two_dots (s : GoString) :
    ((okw.what3words s = true ↔ s.count dot = 2) ∧
      (okw.what3words s = true ↔ (strings.Split s dot).length = 3)) ∧
    ((okt.what3words s = true ↔ s.count dot = 2) ∧
      (okt.what3words s = true ↔ (strings.Split s dot).length = 3)) := by
  have h := strings_Split_length s dot
  unfold okw.what3words okt.what3words
  rw [beq_iff_eq, h]
  omega

/-- C2: the validator accepts "table.chair.lamp" and rejects "table.chair",
"a.b.c.d" and the empty string, which splits into one empty segment. -/
theorem what3words_examples :
    (okw.what3words (utf8 "table.chair.lamp") = true ∧
      okw.what3words (utf8 "table.chair") = false ∧
      okw.what3words (utf8 "a.b.c.d") = false ∧
      okw.what3words (utf8 "") = false) ∧
    (okt.what3words (utf8 "table.chair.lamp") = true ∧
      okt.what3words (utf8 "table.chair") = false ∧
      okt.what3words (utf8 "a.b.c.d") = false ∧
      okt.what3words (utf8 "") = false) ∧
    strings.Split (utf8 "") dot = [[]] := by
  decide

/-! ## Enumeration listings -/

/-- C3: for every receiver, `FacilityStatus.Enum` of the OKW module returns
Active, Planned, TemporaryClosure, Closed in that order, with the string values
"Active", "Planned", "Temporary Closure", "Closed". -/
theorem okw_FacilityStatus_Enum_values (fs : okw.FacilityStatus) :
    fs.Enum = [okw.Active, okw.Planned, okw.TemporaryClosure, okw.Closed] ∧
    fs.Enum.map okw.FacilityStatus.str =
      [utf8 "Active", utf8 "Planned", utf8 "Temporary Closure", utf8 "Closed"] := by
  constructor <;> rfl

/-- C4: for every receiver, `AccessType.Enum` of the OKW module returns the five
access types in the documented order: "Restricted", "Restricted with public
hours", "Shared space", "Public", "Membership". -/
theorem okw_AccessType_Enum_values (a : okw.AccessType) :
    a.Enum = [okw.Restricted, okw.RestrictedWithPublicHours, okw.SharedSpace,
      okw.Public, okw.Membership] ∧
    a.Enum.map okw.AccessType.str =
      [utf8 "Restricted", utf8 "Restricted with public hours", utf8 "Shared space",
        utf8 "Public", utf8 "Membership"] := by
  constructor <;> rfl

/-- C5: for every enumeration type with both listings and every receiver,
`EnumOptions` is the element-wise string conversion of `Enum`. -/
theorem EnumOptions_eq_map_string :
    (∀ x : okw.FacilityStatus, x.EnumOptions = x.Enum.map okw.FacilityStatus.str) ∧
    (∀ x : okw.AccessType, x.EnumOptions = x.Enum.map okw.AccessType.str) ∧
    (∀ x : okw.TypicalBatchSize, x.EnumOptions = x.Enum.map okw.TypicalBatchSize.str) ∧
    (∀ x : okw.Skill, x.EnumOptions = x.Enum.map okw.Skill.str) ∧
    (∀ x : okw.Certification, x.EnumOptions = x.Enum.map okw.Certification.str) ∧
    (∀ x : okt.TypicalBatchSize, x.EnumOptions = x.Enum.map okt.TypicalBatchSize.str) ∧
    (∀ x : okt.Skill, x.EnumOptions = x.Enum.map okt.Skill.str) ∧
    (∀ x : okt.Certification, x.EnumOptions = x.Enum.map okt.Certification.str) := by
  refine ⟨?_, ?_, ?_, ?_, ?_, ?_, ?_, ?_⟩ <;> intro x <;> rfl

/-- C6: the listings do not depend on the receiver: for every type with a
listing, in either module, any two receivers give the same `Enum` and the same
`EnumOptions`. -/
theorem Enum_receiver_independent :
    (∀ x y : okw.FacilityStatus, x.Enum = y.Enum ∧ x.EnumOptions = y.EnumOptions) ∧
    (∀ x y : okw.AccessType, x.Enum = y.Enum ∧ x.EnumOptions = y.EnumOptions) ∧
    (∀ x y : okw.TypicalBatchSize, x.Enum = y.Enum ∧ x.EnumOptions = y.EnumOptions) ∧
    (∀ x y : okw.Skill, x.Enum = y.Enum ∧ x.EnumOptions = y.EnumOptions) ∧
    (∀ x y : okw.Certification, x.Enum = y.Enum ∧ x.EnumOptions = y.EnumOptions) ∧
    (∀ x y : okt.TypicalBatchSize, x.Enum = y.Enum ∧ x.EnumOptions = y.EnumOptions) ∧
    (∀ x y : okt.Skill, x.Enum = y.Enum ∧ x.EnumOptions = y.EnumOptions) ∧
    (∀ x y : okt.Certification, x.Enum = y.Enum ∧ x.EnumOptions = y.EnumOptions) := by
  refine ⟨?_, ?_, ?_, ?_, ?_, ?_, ?_, ?_⟩ <;> intro x y <;> exact ⟨rfl, rfl⟩

/-- The method table of each module lists a listing method exactly for the
types whose `Enum` and `EnumOptions` the embedding defines. -/
theorem listing_types :
    (okw.methods.filter (fun m => m.2 == "Enum")).map Prod.fst =
      ["FacilityStatus", "AccessType", "TypicalBatchSize", "Skill", "Certification"] ∧
    (okw.methods.filter (fun m => m.2 == "EnumOptions")).map Prod.fst =
      ["FacilityStatus", "AccessType", "TypicalBatchSize", "Skill", "Certification"] ∧
    (okt.methods.filter (fun m => m.2 == "Enum")).map Prod.fst =
      ["TypicalBatchSize", "Skill", "Certification"] ∧
    (okt.methods.filter (fun m => m.2 == "EnumOptions")).map Prod.fst =
      ["TypicalBatchSize", "Skill", "Certification"] := by
  decide

/-- C7, as stated, fails: in the OKT module neither FacilityStatus nor
AccessType has a value listing `Enum` or a string listing `EnumOptions`. -/
theorem okt_status_access_no_listing :
    ¬ (okt.methods.has "FacilityStatus" "Enum" = true ∧
        okt.methods.has "FacilityStatus" "EnumOptions" = true ∧
        okt.methods.has "AccessType" "Enum" = true ∧
        okt.methods.has "AccessType" "EnumOptions" = true) ∧
    okt.methods.hasListing "FacilityStatus" = false ∧
    okt.methods.hasListing "AccessType" = false := by
  decide

/-- C7, amended: in the OKT module FacilityStatus and AccessType declare the
marker `IsEnum` only, which returns true for every receiver, and the module
declares no constant; the value listing and the string listing of these two
enumerations exist in the OKW module, where `FacilityStatus.Enum` returns
Active, Planned, Temporary Closure, Closed with the matching strings. -/
theorem okt_status_access_IsEnum_only :
    (∀ fs : okt.FacilityStatus, fs.IsEnum = true) ∧
    (∀ a : okt.AccessType, a.IsEnum = true) ∧
    okt.methods.filter (fun m => m.1 == "FacilityStatus") = [("FacilityStatus", "IsEnum")] ∧
    okt.methods.filter (fun m => m.1 == "AccessType") = [("AccessType", "IsEnum")] ∧
    okt.constants = [] ∧
    okw.methods.hasListing "FacilityStatus" = true ∧
    okw.methods.hasListing "AccessType" = true ∧
    (∀ fs : okw.FacilityStatus, fs.EnumOptions =
      [utf8 "Active", utf8 "Planned", utf8 "Temporary Closure", utf8 "Closed"] ∧
      fs.EnumOptions = fs.Enum.map okw.FacilityStatus.str) := by
  refine ⟨fun _ => rfl, fun _ => rfl, by decide, by decide, rfl, by decide, by decide, ?_⟩
  intro fs
  exact ⟨rfl, rfl⟩

/-! ## Field keys of the two encoders -/

/-- All fields whose YAML key and JSON key differ: `GPS.Longitude`, whose tags
name two different keys, and the fields declared without a tag, whose default
keys differ in letter case. -/
theorem keyMismatches_eq :
    okw.decls.keyMismatches =
      [("Student", "Fname"), ("Student", "Lname"), ("Student", "City"), ("Student", "Mobile"),
       ("GPS", "Longitude"),
       ("EquipmentProperties", "BendingLength"), ("EquipmentProperties", "BuildVolume"),
       ("EquipmentProperties", "ChuckJawDiameter"), ("EquipmentProperties", "ColletSize"),
       ("EquipmentProperties", "ComputerControlled"), ("EquipmentProperties", "CrossSlideTravel"),
       ("EquipmentProperties", "DaylightOpening"),
       ("EquipmentProperties", "DistanceBetweenCentres"),
       ("EquipmentProperties", "EjectorThreads"), ("EquipmentProperties", "ExtractionSystem"),
       ("EquipmentProperties", "GantryMaterial"),
       ("Material", "Manufacturer"), ("Material", "Brand"), ("Material", "SupplierLocation"),
       ("Material", "DefinedMaterialType")] ∧
    okt.decls.keyMismatches =
      [("GPS", "Longitude"),
       ("Material", "Manufacturer"), ("Material", "Brand"), ("Material", "SupplierLocation")] := by
  decide

/-- C8 fails on `GPS.Longitude`: the struct GPS is nested in the root record
of either module (through `Location.GPS`), and its field Longitude has the
YAML key "longitude" but the JSON key "logitude". -/
theorem GPS_Longitude_keys_differ :
    (okw.decls.Reachable "OKW" "GPS" ∧
      (okw.decls.field "GPS" "Longitude").map yamlKey = some "longitude" ∧
      (okw.decls.field "GPS" "Longitude").map jsonKey = some "logitude") ∧
    (okt.decls.Reachable "OKT" "GPS" ∧
      (okt.decls.field "GPS" "Longitude").map yamlKey = some "longitude" ∧
      (okt.decls.field "GPS" "Longitude").map jsonKey = some "logitude") ∧
    ¬ (∀ f ∈ okw.decls.fields "GPS", yamlKey f = jsonKey f) ∧
    ¬ (∀ f ∈ okt.decls.fields "GPS", yamlKey f = jsonKey f) := by
  refine ⟨⟨?_, by decide, by decide⟩, ⟨?_, by decide, by decide⟩, by decide, by decide⟩
  · exact Relation.TransGen.tail
      (Relation.TransGen.single (by decide : "Location" ∈ okw.decls.directRefs "OKW"))
      (by decide : "GPS" ∈ okw.decls.directRefs "Location")
  · exact Relation.TransGen.tail
      (Relation.TransGen.single (by decide : "Location" ∈ okt.decls.directRefs "OKT"))
      (by decide : "GPS" ∈ okt.decls.directRefs "Location")

/-! ## The type-maps -/

/-- A set of type names that contains the direct references of `root` and is
closed under direct reference contains every type nested in `root`. -/
theorem Reachable_subset_of_closed (ds : Decls) (root : String) (keys : List String)
    (hroot : ∀ b ∈ ds.directRefs root, b ∈ keys)
    (hclosed : ∀ a ∈ keys, ∀ b ∈ ds.directRefs a, b ∈ keys)
    (t : String) (h : ds.Reachable root t) : t ∈ keys := by
  induction h with
  | single h1 => exact hroot _ h1
  | tail _ h2 ih => exact hclosed _ ih _ h2

/-- The named types nested in the OKW root record are exactly these fifteen. -/
theorem okw_Reachable_iff (t : String) :
    okw.decls.Reachable "OKW" t ↔
      t ∈ ["Location", "Agent", "FacilityStatus", "AccessType", "Equipment",
        "TypicalBatchSize", "Material", "Certification", "CustomerReview", "Address", "GPS",
        "Contact", "SocialMedia", "Skill", "MaterialType"] := by
  constructor
  · exact Reachable_subset_of_closed okw.decls "OKW" _ (by decide) (by decide) t
  · intro h
    have s : ∀ b : String, b ∈ okw.decls.directRefs "OKW" → okw.decls.Reachable "OKW" b :=
      fun b h1 => Relation.TransGen.single h1
    have e : ∀ b c : String, b ∈ okw.decls.directRefs "OKW" → c ∈ okw.decls.directRefs b →
        okw.decls.Reachable "OKW" c :=
      fun b c h1 h2 => Relation.TransGen.tail (Relation.TransGen.single h1) h2
    simp only [List.mem_cons, List.mem_singleton, List.not_mem_nil, or_false] at h
    rcases h with h | h | h | h | h | h | h | h | h | h | h | h | h | h | h <;> subst h
    · exact s _ (by decide)
    · exact s _ (by decide)
    · exact s _ (by decide)
    · exact s _ (by decide)
    · exact s _ (by decide)
    · exact s _ (by decide)
    · exact s _ (by decide)
    · exact s _ (by decide)
    · exact s _ (by decide)
    · exact e "Location" _ (by decide) (by decide)
    · exact e "Location" _ (by decide) (by decide)
    · exact e "Agent" _ (by decide) (by decide)
    · exact e "Agent" _ (by decide) (by decide)
    · exact e "Equipment" _ (by decide) (by decide)
    · exact e "Material" _ (by decide) (by decide)

/-- C9: the OKW type-map has an entry keyed by the name of every named type
nested in the OKW root record (reachable through struct fields and slice
elements), and the entry holds a value of that type. -/
theorem okw_TypeMap_lists_reachable (t : String) (h : okw.decls.Reachable "OKW" t) :
    ∃ v, (t, v) ∈ okw.TypeMap ∧ v.type = .named t := by
  have hk := (okw_Reachable_iff t).mp h
  simp only [List.mem_cons, List.mem_singleton, List.not_mem_nil, or_false] at hk
  rcases hk with h | h | h | h | h | h | h | h | h | h | h | h | h | h | h <;> subst h
  · exact ⟨.Location okw.Location.zero, by decide, rfl⟩
  · exact ⟨.Agent okw.Agent.zero, by decide, rfl⟩
  · exact ⟨.FacilityStatus okw.FacilityStatus.zero, by decide, rfl⟩
  · exact ⟨.AccessType okw.AccessType.zero, by decide, rfl⟩
  · exact ⟨.Equipment okw.Equipment.zero, by decide, rfl⟩
  · exact ⟨.TypicalBatchSize okw.TypicalBatchSize.zero, by decide, rfl⟩
  · exact ⟨.Material okw.Material.zero, by decide, rfl⟩
  · exact ⟨.Certification okw.Certification.zero, by decide, rfl⟩
  · exact ⟨.CustomerReview okw.CustomerReview.zero, by decide, rfl⟩
  · exact ⟨.Address okw.Address.zero, by decide, rfl⟩
  · exact ⟨.GPS okw.GPS.zero, by decide, rfl⟩
  · exact ⟨.Contact okw.Contact.zero, by decide, rfl⟩
  · exact ⟨.SocialMedia okw.SocialMedia.zero, by decide, rfl⟩
  · exact ⟨.Skill okw.Skill.zero, by decide, rfl⟩
  · exact ⟨.MaterialType okw.MaterialType.zero, by decide, rfl⟩

/-- Witness for C9: MaterialType, nested in OKW through `TypicalMaterials` and
`Material.DefinedMaterialType`, has its entry. -/
theorem okw_TypeMap_lists_reachable_witness :
    okw.decls.Reachable "OKW" "MaterialType" ∧
    ∃ v, ("MaterialType", v) ∈ okw.TypeMap ∧ v.type = .named "MaterialType" :=
  have h : okw.decls.Reachable "OKW" "MaterialType" :=
    Relation.TransGen.tail
      (Relation.TransGen.single (by decide : "Material" ∈ okw.decls.directRefs "OKW"))
      (by decide : "MaterialType" ∈ okw.decls.directRefs "Material")
  ⟨h, okw_TypeMap_lists_reachable "MaterialType" h⟩

/-- The named types nested in the OKT root record are exactly these seventeen. -/
theorem okt_Reachable_iff (t : String) :
    okt.decls.Reachable "OKT" t ↔
      t ∈ ["Location", "Agent", "FacilityStatus", "Vehicle", "Service", "GeoShape", "Permit",
        "Equipment", "Material", "Certification", "CustomerReview", "Address", "GPS",
        "Contact", "SocialMedia", "QuantitativeValue", "Skill"] := by
  constructor
  · exact Reachable_subset_of_closed okt.decls "OKT" _ (by decide) (by decide) t
  · intro h
    have s : ∀ b : String, b ∈ okt.decls.directRefs "OKT" → okt.decls.Reachable "OKT" b :=
      fun b h1 => Relation.TransGen.single h1
    have e : ∀ b c : String, b ∈ okt.decls.directRefs "OKT" → c ∈ okt.decls.directRefs b →
        okt.decls.Reachable "OKT" c :=
      fun b c h1 h2 => Relation.TransGen.tail (Relation.TransGen.single h1) h2
    simp only [List.mem_cons, List.mem_singleton, List.not_mem_nil, or_false] at h
    rcases h with h | h | h | h | h | h | h | h | h | h | h | h | h | h | h | h | h <;> subst h
    · exact s _ (by decide)
    · exact s _ (by decide)
    · exact s _ (by decide)
    · exact s _ (by decide)
    · exact s _ (by decide)
    · exact s _ (by decide)
    · exact s _ (by decide)
    · exact s _ (by decide)
    · exact s _ (by decide)
    · exact s _ (by decide)
    · exact s _ (by decide)
    · exact e "Location" _ (by decide) (by decide)
    · exact e "Location" _ (by decide) (by decide)
    · exact e "Agent" _ (by decide) (by decide)
    · exact e "Agent" _ (by decide) (by decide)
    · exact e "Vehicle" _ (by decide) (by decide)
    · exact e "Equipment" _ (by decide) (by decide)

/-- The nested types of the OKT root record that have an entry under their own
name in the OKT type-map are the eleven types the module shares with OKW; the
other six have none. -/
theorem okt_TypeMap_entry_iff (t : String) (h : okt.decls.Reachable "OKT" t) :
    (∃ v, (t, v) ∈ okt.TypeMap) ↔
      t ∉ ["Vehicle", "Service", "GeoShape", "Permit", "CustomerReview",
        "QuantitativeValue"] := by
  have hk := (okt_Reachable_iff t).mp h
  have key : (∃ v, (t, v) ∈ okt.TypeMap) ↔ t ∈ okt.TypeMapKeys := by
    unfold okt.TypeMapKeys
    rw [List.mem_map]
    constructor
    · rintro ⟨v, hv⟩
      exact ⟨(t, v), hv, rfl⟩
    · rintro ⟨⟨k, v⟩, hkv, rfl⟩
      exact ⟨v, hkv⟩
  rw [key]
  simp only [List.mem_cons, List.mem_singleton, List.not_mem_nil, or_false] at hk
  rcases hk with h | h | h | h | h | h | h | h | h | h | h | h | h | h | h | h | h <;>
    subst h <;> decide

theorem okt_TypeMap_entry_iff_witness :
    okt.decls.Reachable "OKT" "Vehicle" ∧
    ((∃ v, ("Vehicle", v) ∈ okt.TypeMap) ↔
      "Vehicle" ∉ ["Vehicle", "Service", "GeoShape", "Permit", "CustomerReview",
        "QuantitativeValue"]) :=
  have h : okt.decls.Reachable "OKT" "Vehicle" :=
    Relation.TransGen.single (by decide : "Vehicle" ∈ okt.decls.directRefs "OKT")
  ⟨h, okt_TypeMap_entry_iff "Vehicle" h⟩

/-- C10 fails on the OKT type-map: CustomerReview, Vehicle and
QuantitativeValue (and the interface types Service, GeoShape, Permit) are
nested in the OKT root record, yet the map has no entry keyed by their names;
the vehicles, services, permits and areas of service appear under the field
names instead, and the OKW map does list CustomerReview. -/
theorem okt_TypeMap_misses_reachable :
    (okt.decls.Reachable "OKT" "CustomerReview" ∧ ¬ ∃ v, ("CustomerReview", v) ∈ okt.TypeMap) ∧
    (okt.decls.Reachable "OKT" "Vehicle" ∧ ¬ ∃ v, ("Vehicle", v) ∈ okt.TypeMap) ∧
    (okt.decls.Reachable "OKT" "QuantitativeValue" ∧
      ¬ ∃ v, ("QuantitativeValue", v) ∈ okt.TypeMap) ∧
    (okt.decls.Reachable "OKT" "Service" ∧ ¬ ∃ v, ("Service", v) ∈ okt.TypeMap) ∧
    (okt.decls.Reachable "OKT" "GeoShape" ∧ ¬ ∃ v, ("GeoShape", v) ∈ okt.TypeMap) ∧
    (okt.decls.Reachable "OKT" "Permit" ∧ ¬ ∃ v, ("Permit", v) ∈ okt.TypeMap) ∧
    okt.TypeMapKeys = ["FacilityStatus", "Location", "What3Words", "Address", "GPS", "Agent",
      "URL", "Contact", "SocialMedia", "Skill", "Equipment", "Vehicles", "Material",
      "Services", "Permits", "AreasOfService", "Certification"] ∧
    (∃ v, ("CustomerReview", v) ∈ okw.TypeMap) := by
  have no : ∀ t : String, (∀ e ∈ okt.TypeMap, e.1 ≠ t) → ¬ ∃ v, (t, v) ∈ okt.TypeMap := by
    rintro t ht ⟨v, hv⟩
    exact ht (t, v) hv rfl
  have r : ∀ t : String, t ∈ ["Location", "Agent", "FacilityStatus", "Vehicle", "Service",
      "GeoShape", "Permit", "Equipment", "Material", "Certification", "CustomerReview",
      "Address", "GPS", "Contact", "SocialMedia", "QuantitativeValue", "Skill"] →
      okt.decls.Reachable "OKT" t := fun t => (okt_Reachable_iff t).mpr
  refine ⟨⟨r _ (by decide), no _ (by decide)⟩, ⟨r _ (by decide), no _ (by decide)⟩,
    ⟨r _ (by decide), no _ (by decide)⟩, ⟨r _ (by decide), no _ (by decide)⟩,
    ⟨r _ (by decide), no _ (by decide)⟩, ⟨r _ (by decide), no _ (by decide)⟩, by decide,
    ⟨.CustomerReview okw.CustomerReview.zero, by decide⟩⟩

/-- C11 fails on the OKT type-map: the entry keyed "Vehicles" holds a value of
the unnamed type `[]Vehicle`, whose name is not the key, and the value is the
empty non-nil slice, not the zero value (the nil slice). -/
theorem okt_TypeMap_Vehicles_not_zero_of_key :
    ("Vehicles", okt.Any.sliceVehicle (some [])) ∈ okt.TypeMap ∧
    (okt.Any.sliceVehicle (some [])).type ≠ .named "Vehicles" ∧
    okt.Any.sliceVehicle (some []) ≠ (okt.Any.sliceVehicle (some [])).zero ∧
    ¬ (∀ e ∈ okt.TypeMap, e.2.type = .named e.1 ∧ e.2 = e.2.zero) := by
  refine ⟨by decide, by decide, by decide, ?_⟩
  intro h
  exact absurd (h ("Vehicles", okt.Any.sliceVehicle (some [])) (by decide)).2 (by decide)

/-- Every entry of the OKW type-map, and every entry of the OKT type-map other
than the four keyed "Vehicles", "Services", "Permits" and "AreasOfService",
associates the name of a declared type with the zero value of that type; each
of those four is keyed by the name of a field of the OKT record and holds the
empty, non-nil slice of that field's slice type. -/
theorem TypeMap_entries :
    (∀ e ∈ okw.TypeMap, e.2.type = .named e.1 ∧ e.2 = e.2.zero ∧
      (okw.decls.lookup e.1).isSome = true) ∧
    (∀ e ∈ okt.TypeMap.filter
        (fun e => !(List.contains ["Vehicles", "Services", "Permits", "AreasOfService"] e.1)),
      e.2.type = .named e.1 ∧ e.2 = e.2.zero ∧ (okt.decls.lookup e.1).isSome = true) ∧
    okt.TypeMap.filter
        (fun e => ["Vehicles", "Services", "Permits", "AreasOfService"].contains e.1) =
      [("Vehicles", .sliceVehicle (some [])), ("Services", .sliceService (some [])),
       ("Permits", .slicePermit (some [])), ("AreasOfService", .sliceGeoShape (some []))] ∧
    (∀ e ∈ okt.TypeMap.filter
        (fun e => ["Vehicles", "Services", "Permits", "AreasOfService"].contains e.1),
      (okt.decls.field "OKT" e.1).map StructField.type = some e.2.type ∧ e.2 ≠ e.2.zero) := by
  refine ⟨by decide, by decide, by decide, by decide⟩

/-! ## The sample records -/

/-- C12: the record each sample generator builds has contact.name
"Some Person" and contact.website "https://example.com"; every other field of
the record and of its contact holds its zero value, so that clearing the two
fields gives the zero value of the record type. -/
theorem sampleRecord_fields :
    (okw.sampleRecord.Contact.Name = utf8 "Some Person" ∧
      okw.sampleRecord.Contact.Website = utf8 "https://example.com" ∧
      { okw.sampleRecord with
        Contact := { okw.sampleRecord.Contact with Name := [], Website := [] } } = okw.OKW.zero ∧
      okw.sampleRecord.Name = [] ∧
      okw.sampleRecord.Location = okw.Location.zero ∧
      okw.sampleRecord.Owner = okw.Agent.zero ∧
      okw.sampleRecord.Affiliations = none ∧
      okw.sampleRecord.FacilityStatus = ⟨[]⟩ ∧
      okw.sampleRecord.OpeningHours = [] ∧
      okw.sampleRecord.Description = [] ∧
      okw.sampleRecord.DateFounded = [] ∧
      okw.sampleRecord.AccessType = ⟨[]⟩ ∧
      okw.sampleRecord.WheelchairAcessibility = false ∧
      okw.sampleRecord.Equipment = okw.Equipment.zero ∧
      okw.sampleRecord.ManufacturingProcesses = [] ∧
      okw.sampleRecord.TypicalBatchSize = ⟨[]⟩ ∧
      okw.sampleRecord.SizeFloorSize = 0 ∧
      okw.sampleRecord.StorageCapacity = [] ∧
      okw.sampleRecord.TypicalMaterials = none ∧
      okw.sampleRecord.Certifications = none ∧
      okw.sampleRecord.BackupGenerator = false ∧
      okw.sampleRecord.UninterruptedPowerSupply = false ∧
      okw.sampleRecord.RoadAccess = false ∧
      okw.sampleRecord.LoadingDock = false ∧
      okw.sampleRecord.MaintenanceSchedule = [] ∧
      okw.sampleRecord.TypicalProducts = none ∧
      okw.sampleRecord.PartnerFunder = okw.Agent.zero ∧
      okw.sampleRecord.CustomerReviews = none ∧
      okw.sampleRecord.Contact.Location = okw.Location.zero ∧
      okw.sampleRecord.Contact.ContactPerson = [] ∧
      okw.sampleRecord.Contact.Contact = ⟨[], [], [], [], []⟩ ∧
      okw.sampleRecord.Contact.SocialMedia = ⟨[], [], [], none⟩) ∧
    (okt.sampleRecord.Contact.Name = utf8 "Some Person" ∧
      okt.sampleRecord.Contact.Website = utf8 "https://example.com" ∧
      { okt.sampleRecord with
        Contact := { okt.sampleRecord.Contact with Name := [], Website := [] } } = okt.OKT.zero ∧
      okt.sampleRecord.Name = [] ∧
      okt.sampleRecord.Description = [] ∧
      okt.sampleRecord.Location = okt.Location.zero ∧
      okt.sampleRecord.Owner = okt.Agent.zero ∧
      okt.sampleRecord.Affiliations = none ∧
      okt.sampleRecord.FacilityStatus = ⟨[]⟩ ∧
      okt.sampleRecord.OpeningHours = [] ∧
      okt.sampleRecord.Vehicles = none ∧
      okt.sampleRecord.Services = none ∧
      okt.sampleRecord.AreasOfService = none ∧
      okt.sampleRecord.Permits = none ∧
      okt.sampleRecord.DateFounded = [] ∧
      okt.sampleRecord.Equipment = okt.Equipment.zero ∧
      okt.sampleRecord.TypicalMaterials = none ∧
      okt.sampleRecord.Certifications = none ∧
      okt.sampleRecord.CustomerReviews = none ∧
      okt.sampleRecord.Contact.Location = okt.Location.zero ∧
      okt.sampleRecord.Contact.ContactPerson = [] ∧
      okt.sampleRecord.Contact.Contact = ⟨[], [], [], [], []⟩ ∧
      okt.sampleRecord.Contact.SocialMedia = ⟨[], [], [], none⟩) ∧
    (okw.Location.zero = ⟨⟨[], [], [], [], [], [], []⟩, ⟨⟨0⟩, ⟨0⟩⟩, [], []⟩ ∧
      okw.Agent.zero =
        ⟨[], okw.Location.zero, [], ⟨[], [], [], [], []⟩, [], ⟨[], [], [], none⟩⟩ ∧
      okw.Equipment.zero = ⟨[], [], [], [], [], okw.Location.zero, none, []⟩) ∧
    (okt.Location.zero = ⟨⟨[], [], [], [], [], [], []⟩, ⟨⟨0⟩, ⟨0⟩⟩, [], []⟩ ∧
      okt.Agent.zero =
        ⟨[], okt.Location.zero, [], ⟨[], [], [], [], []⟩, [], ⟨[], [], [], none⟩⟩ ∧
      okt.Equipment.zero = ⟨[], [], [], [], [], okt.Location.zero, none, []⟩) := by
  repeat' apply And.intro
  all_goals rfl

/-- The `validate` rules the two schemas declare. -/
theorem validateRules_eq :
    okw.decls.validateRules =
      [("OKW", "Name", "required"), ("OKW", "Location", "required"),
       ("OKW", "Contact", "required"), ("What3Words", "Coordinates", "what3words"),
       ("Agent", "Name", "required"), ("CustomerReview", "Rating", "gte=1,lte=5")] ∧
    okt.decls.validateRules =
      [("OKT", "Name", "required"), ("OKT", "Location", "required"),
       ("OKT", "Contact", "required"), ("What3Words", "Coordinates", "what3words"),
       ("Agent", "Name", "required"), ("CustomerReview", "Rating", "gte=1,lte=5")] := by
  decide

/-- C13, as stated, fails: the name of the OKW sample record and the name of
the OKT sample record are empty, so neither record has a non-empty name
together with a non-empty contact name. -/
theorem sampleRecord_Name_empty :
    ¬ (okw.sampleRecord.Name ≠ [] ∧ okw.sampleRecord.Contact.Name ≠ []) ∧
    ¬ (okt.sampleRecord.Name ≠ [] ∧ okt.sampleRecord.Contact.Name ≠ []) ∧
    validator.required okw.sampleRecord.Name = false ∧
    validator.required okt.sampleRecord.Name = false := by
  decide

/-- C13, amended: the OKW and the OKT sample record each have a contact whose
name is not empty, as the rule `required` declared on `Agent.Name` demands, and
an empty record name, which the rule `required` declared on the record's
`Name` rejects. -/
theorem sampleRecord_required :
    (validator.required okw.sampleRecord.Contact.Name = true ∧
      validator.required okw.sampleRecord.Name = false ∧
      (okw.decls.field "OKW" "Name").map (fun f => f.tagLookup "validate") =
        some (some "required") ∧
      (okw.decls.field "OKW" "Contact").map (fun f => f.tagLookup "validate") =
        some (some "required") ∧
      (okw.decls.field "Agent" "Name").map (fun f => f.tagLookup "validate") =
        some (some "required")) ∧
    (validator.required okt.sampleRecord.Contact.Name = true ∧
      validator.required okt.sampleRecord.Name = false ∧
      (okt.decls.field "OKT" "Name").map (fun f => f.tagLookup "validate") =
        some (some "required") ∧
      (okt.decls.field "OKT" "Contact").map (fun f => f.tagLookup "validate") =
        some (some "required") ∧
      (okt.decls.field "Agent" "Name").map (fun f => f.tagLookup "validate") =
        some (some "required")) := by
  decide

/-- The struct What3Words is not nested in the root record of either module. -/
theorem What3Words_not_Reachable :
    ¬ okw.decls.Reachable "OKW" "What3Words" ∧ ¬ okt.decls.Reachable "OKT" "What3Words" := by
  constructor
  · intro h
    exact absurd ((okw_Reachable_iff _).mp h) (by decide)
  · intro h
    exact absurd ((okt_Reachable_iff _).mp h) (by decide)

/-- C14 fails on the field `Location.What3Words`: in both schemas it is a
plain string without a `validate` rule, the rule `what3words` is declared on
`What3Words.Coordinates` only, and the struct What3Words is not nested in the
root record; a location phrase of two tokens, which the validator rejects, is
therefore subject to no declared rule. -/
theorem Location_What3Words_unvalidated :
    ((okw.decls.field "Location" "What3Words").map
        (fun f => (yamlKey f, f.type, f.tagLookup "validate")) =
        some ("what_3_words", .string, none) ∧
      (okw.decls.validateRules.filter (fun r => r.2.2 == "what3words")) =
        [("What3Words", "Coordinates", "what3words")] ∧
      ¬ okw.decls.Reachable "OKW" "What3Words" ∧
      okw.what3words (utf8 "table.chair") = false) ∧
    ((okt.decls.field "Location" "What3Words").map
        (fun f => (yamlKey f, f.type, f.tagLookup "validate")) =
        some ("what_3_words", .string, none) ∧
      (okt.decls.validateRules.filter (fun r => r.2.2 == "what3words")) =
        [("What3Words", "Coordinates", "what3words")] ∧
      ¬ okt.decls.Reachable "OKT" "What3Words" ∧
      okt.what3words (utf8 "table.chair") = false) := by
  refine ⟨⟨by decide, by decide, ?_, by decide⟩, ⟨by decide, by decide, ?_, by decide⟩⟩
  · intro h
    exact absurd ((okw_Reachable_iff _).mp h) (by decide)
  · intro h
    exact absurd ((okt_Reachable_iff _).mp h) (by decide)

/-- The rules `gte=1,lte=5` accept exactly the integers from 1 to 5. -/
theorem validInt_gte1_lte5 (r : Int) :
    validator.validInt "gte=1,lte=5" r = true ↔ 1 ≤ r ∧ r ≤ 5 := by
  have hp : validator.parseTag "gte=1,lte=5" = [("gte", ['1']), ("lte", ['5'])] := by decide
  have h1 : validator.asInt ['1'] = some 1 := by decide
  have h5 : validator.asInt ['5'] = some 5 := by decide
  have hne : ¬ ("lte" = "gte") := by decide
  simp [validator.validInt, hp, validator.checkInt, h1, h5, hne]

/-- C15: in both schemas the rule declared on `CustomerReview.Rating` is
`gte=1,lte=5`, it accepts an integer rating exactly when the rating lies
between 1 and 5, and it rejects the rating 0 of the zero-valued review. -/
theorem Rating_rule_iff (r : Int) :
    ((okw.decls.field "CustomerReview" "Rating").map
        (fun f => (f.type, f.tagGet "validate")) = some (.int, "gte=1,lte=5") ∧
      (okt.decls.field "CustomerReview" "Rating").map
        (fun f => (f.type, f.tagGet "validate")) = some (.int, "gte=1,lte=5")) ∧
    (validator.validInt "gte=1,lte=5" r = true ↔ 1 ≤ r ∧ r ≤ 5) ∧
    (okw.CustomerReview.zero.Rating = 0 ∧
      validator.validInt "gte=1,lte=5" okw.CustomerReview.zero.Rating = false) ∧
    (okt.CustomerReview.zero.Rating = 0 ∧
      validator.validInt "gte=1,lte=5" okt.CustomerReview.zero.Rating = false) := by
  refine ⟨⟨by decide, by decide⟩, validInt_gte1_lte5 r, ⟨rfl, by decide⟩, ⟨rfl, by decide⟩⟩

/-! ## Keys of the SocialMedia object -/

/-- C17 fails on the field `SocialMedia.Facebook`: the object is the
`social_media` field of an Agent, and its serialized keys are landline,
twitter, instagram, other_urls in both modules and both encoders; the key
facebook of the schema documentation does not occur, and landline is also the
key of `Contact.Landline`. -/
theorem SocialMedia_keys :
    ((okw.decls.field "Agent" "SocialMedia").map (fun f => (yamlKey f, jsonKey f, f.type)) =
        some ("social_media", "social_media", .named "SocialMedia") ∧
      (okw.decls.fields "SocialMedia").map yamlKey =
        ["landline", "twitter", "instagram", "other_urls"] ∧
      (okw.decls.fields "SocialMedia").map jsonKey =
        ["landline", "twitter", "instagram", "other_urls"] ∧
      (okw.decls.field "SocialMedia" "Facebook").map yamlKey = some "landline" ∧
      (okw.decls.field "Contact" "Landline").map yamlKey = some "landline") ∧
    ((okt.decls.field "Agent" "SocialMedia").map (fun f => (yamlKey f, jsonKey f, f.type)) =
        some ("social_media", "social_media", .named "SocialMedia") ∧
      (okt.decls.fields "SocialMedia").map yamlKey =
        ["landline", "twitter", "instagram", "other_urls"] ∧
      (okt.decls.fields "SocialMedia").map jsonKey =
        ["landline", "twitter", "instagram", "other_urls"] ∧
      (okt.decls.field "SocialMedia" "Facebook").map yamlKey = some "landline" ∧
      (okt.decls.field "Contact" "Landline").map yamlKey = some "landline") ∧
    (okw.decls.fields "SocialMedia").map yamlKey ≠
      ["facebook", "twitter", "instagram", "other_urls"] := by
  decide

/-! ## The validator looks at the separator only -/

theorem what3words_eq_of_count_eq (s t : GoString) (h : s.count dot = t.count dot) :
    okw.what3words s = okw.what3words t ∧ okt.what3words s = okt.what3words t := by
  unfold okw.what3words okt.what3words
  rw [strings_Split_length, strings_Split_length, h]
  exact ⟨rfl, rfl⟩

/-- C19: text without a separator before and after a phrase does not change
the verdict of the validator, in either module. -/
theorem what3words_surrounding (p t q : GoString) (hp : dot ∉ p) (hq : dot ∉ q) :
    okw.what3words (p ++ t ++ q) = okw.what3words t ∧
    okt.what3words (p ++ t ++ q) = okt.what3words t := by
  apply what3words_eq_of_count_eq
  rw [List.count_append, List.count_append, List.count_eq_zero_of_not_mem hp,
    List.count_eq_zero_of_not_mem hq]
  omega

/-- Witness for C19: " table.chair.lamp " is accepted exactly as
"table.chair.lamp" is. -/
theorem what3words_surrounding_witness :
    dot ∉ utf8 " " ∧ dot ∉ utf8 " " ∧
    (okw.what3words (utf8 " " ++ utf8 "table.chair.lamp" ++ utf8 " ") =
        okw.what3words (utf8 "table.chair.lamp") ∧
      okt.what3words (utf8 " " ++ utf8 "table.chair.lamp" ++ utf8 " ") =
        okt.what3words (utf8 "table.chair.lamp")) :=
  ⟨by decide, by decide,
    what3words_surrounding (utf8 " ") (utf8 "table.chair.lamp") (utf8 " ") (by decide)
      (by decide)⟩

/-- A change of the bytes that keeps the separator and only the separator in
place, such as a change of letter case, does not change the verdict. -/
theorem what3words_map (f : UInt8 → UInt8) (hf : ∀ b, f b = dot ↔ b = dot) (s : GoString) :
    okw.what3words (s.map f) = okw.what3words s ∧
    okt.what3words (s.map f) = okt.what3words s := by
  apply what3words_eq_of_count_eq
  induction s with
  | nil => rfl
  | cons b rest ih =>
    rw [List.map_cons, List.count_cons, List.count_cons, ih]
    by_cases hb : b = dot
    · have hfb : f b = dot := (hf b).mpr hb
      rw [hfb, hb]
    · have hfb : ¬ f b = dot := fun e => hb ((hf b).mp e)
      simp [hb, hfb]

/-! ## Enumeration membership is not enforced -/

/-- C20: in both modules `IsEnum` returns true for the FacilityStatus and the
AccessType made from any string, and the OKW FacilityStatus "Demolished", which
is none of the four listed values, still has `IsEnum` true. -/
theorem IsEnum_always_true :
    (∀ s : GoString, (okw.FacilityStatus.mk s).IsEnum = true) ∧
    (∀ s : GoString, (okw.AccessType.mk s).IsEnum = true) ∧
    (∀ s : GoString, (okt.FacilityStatus.mk s).IsEnum = true) ∧
    (∀ s : GoString, (okt.AccessType.mk s).IsEnum = true) ∧
    ((okw.FacilityStatus.mk (utf8 "Demolished")) ∉
        (okw.FacilityStatus.mk (utf8 "Demolished")).Enum ∧
      (okw.FacilityStatus.mk (utf8 "Demolished")).IsEnum = true) ∧
    (∃ fs : okw.FacilityStatus, fs ∉ fs.Enum ∧ fs.IsEnum = true) ∧
    (∃ a : okw.AccessType, a ∉ a.Enum ∧ a.IsEnum = true) := by
  refine ⟨fun _ => rfl, fun _ => rfl, fun _ => rfl, fun _ => rfl, ⟨by decide, rfl⟩,
    ⟨⟨utf8 "Demolished"⟩, by decide, rfl⟩, ⟨⟨utf8 "Nobody"⟩, by decide, rfl⟩⟩

/-! ## The sample generators -/

theorem okw_Sample_targets {σ : Type} (m : Marshallers okw.OKW okw.Any) (w : WriteFile σ)
    (d : GoString) (fs : σ) :
    (okw.Sample m w d fs).targets <+:
      [filepath.Join [d, utf8 "okw.yaml"], filepath.Join [d, utf8 "okw.json"],
       filepath.Join [d, utf8 "src/main/daml/OKW.daml"]] ∧
    ((okw.Sample m w d fs).exit = .returned ↔
      (okw.Sample m w d fs).targets =
        [filepath.Join [d, utf8 "okw.yaml"], filepath.Join [d, utf8 "okw.json"],
         filepath.Join [d, utf8 "src/main/daml/OKW.daml"]]) := by
  rcases hy : m.yaml okw.sampleRecord with e | y
  · simp [okw.Sample, hy, Run.targets]
  · rcases hj : m.json okw.sampleRecord with e | j
    · simp [okw.Sample, hy, hj, Run.targets]
    · rcases hd : m.daml okw.sampleRecord okw.TypeMap with e | dm
      · simp [okw.Sample, hy, hj, hd, Run.targets]
      · simp [okw.Sample, hy, hj, hd, Run.targets]

theorem okt_Sample_targets {σ : Type} (m : Marshallers okt.OKT okt.Any) (w : WriteFile σ)
    (d : GoString) (fs : σ) :
    (okt.Sample m w d fs).targets <+:
      [filepath.Join [d, utf8 "okt.yaml"], filepath.Join [d, utf8 "okt.json"],
       filepath.Join [d, utf8 "src/main/daml/OKT.daml"]] ∧
    ((okt.Sample m w d fs).exit = .returned ↔
      (okt.Sample m w d fs).targets =
        [filepath.Join [d, utf8 "okt.yaml"], filepath.Join [d, utf8 "okt.json"],
         filepath.Join [d, utf8 "src/main/daml/OKT.daml"]]) := by
  rcases hy : m.yaml okt.sampleRecord with e | y
  · simp [okt.Sample, hy, Run.targets]
  · rcases hj : m.json okt.sampleRecord with e | j
    · simp [okt.Sample, hy, hj, Run.targets]
    · rcases hd : m.daml okt.sampleRecord okt.TypeMap with e | dm
      · simp [okt.Sample, hy, hj, hd, Run.targets]
      · simp [okt.Sample, hy, hj, hd, Run.targets]

/-- The six files a run of `main` writes when both generators return. -/
theorem main_targets {σ : Type} (mw : Marshallers okw.OKW okw.Any)
    (mt : Marshallers okt.OKT okt.Any) (w : WriteFile σ) (fs : σ) :
    (templates.main mw mt w fs).exit = .returned ↔
      (templates.main mw mt w fs).targets =
        [utf8 "samples/okw/okw.yaml", utf8 "samples/okw/okw.json",
         utf8 "samples/okw/src/main/daml/OKW.daml", utf8 "samples/okt/okt.yaml",
         utf8 "samples/okt/okt.json", utf8 "samples/okt/src/main/daml/OKT.daml"] := by
  have p1 : filepath.Join [utf8 "samples/okw", utf8 "okw.yaml"] =
      utf8 "samples/okw/okw.yaml" := by decide
  have p2 : filepath.Join [utf8 "samples/okw", utf8 "okw.json"] =
      utf8 "samples/okw/okw.json" := by decide
  have p3 : filepath.Join [utf8 "samples/okw", utf8 "src/main/daml/OKW.daml"] =
      utf8 "samples/okw/src/main/daml/OKW.daml" := by decide
  have p4 : filepath.Join [utf8 "samples/okt", utf8 "okt.yaml"] =
      utf8 "samples/okt/okt.yaml" := by decide
  have p5 : filepath.Join [utf8 "samples/okt", utf8 "okt.json"] =
      utf8 "samples/okt/okt.json" := by decide
  have p6 : filepath.Join [utf8 "samples/okt", utf8 "src/main/daml/OKT.daml"] =
      utf8 "samples/okt/src/main/daml/OKT.daml" := by decide
  rcases h1 : mw.yaml okw.sampleRecord with e | y1
  · simp [templates.main, okw.Sample, h1, Run.targets]
  rcases h2 : mw.json okw.sampleRecord with e | j1
  · simp [templates.main, okw.Sample, h1, h2, Run.targets]
  rcases h3 : mw.daml okw.sampleRecord okw.TypeMap with e | d1
  · simp [templates.main, okw.Sample, h1, h2, h3, Run.targets]
  rcases h4 : mt.yaml okt.sampleRecord with e | y2
  · simp [templates.main, okw.Sample, okt.Sample, h1, h2, h3, h4, Run.targets]
  rcases h5 : mt.json okt.sampleRecord with e | j2
  · simp [templates.main, okw.Sample, okt.Sample, h1, h2, h3, h4, h5, Run.targets]
  rcases h6 : mt.daml okt.sampleRecord okt.TypeMap with e | d2
  · simp [templates.main, okw.Sample, okt.Sample, h1, h2, h3, h4, h5, h6, Run.targets]
  · simp [templates.main, okw.Sample, okt.Sample, h1, h2, h3, h4, h5, h6, Run.targets,
      p1, p2, p3, p4, p5, p6]

theorem okw_Sample_calls {σ : Type} (m : Marshallers okw.OKW okw.Any) (w : WriteFile σ)
    (d : GoString) (fs : σ) :
    (okw.Sample m w d fs).fs = replay w (okw.calls m w d fs) fs ∧
    (okw.calls m w d fs).map Prod.fst <+:
      [filepath.Join [d, utf8 "okw.yaml"], filepath.Join [d, utf8 "okw.json"],
       filepath.Join [d, utf8 "src/main/daml/OKW.daml"]] ∧
    (okw.Sample m w d fs).targets = (okw.calls m w d fs).map Prod.fst ∧
    ((okw.Sample m w d fs).exit = .returned ↔
      (okw.calls m w d fs).map Prod.fst =
        [filepath.Join [d, utf8 "okw.yaml"], filepath.Join [d, utf8 "okw.json"],
         filepath.Join [d, utf8 "src/main/daml/OKW.daml"]]) ∧
    (∀ y j dm, m.yaml okw.sampleRecord = .ok y → m.json okw.sampleRecord = .ok j →
      m.daml okw.sampleRecord okw.TypeMap = .ok dm →
      okw.calls m w d fs =
        [(filepath.Join [d, utf8 "okw.yaml"], y), (filepath.Join [d, utf8 "okw.json"], j),
         (filepath.Join [d, utf8 "src/main/daml/OKW.daml"], dm)] ∧
      (okw.Sample m w d fs).fs =
        (w (w (w fs (filepath.Join [d, utf8 "okw.yaml"]) y).1
            (filepath.Join [d, utf8 "okw.json"]) j).1
          (filepath.Join [d, utf8 "src/main/daml/OKW.daml"]) dm).1 ∧
      (okw.Sample m w d fs).exit = .returned) := by
  rcases hy : m.yaml okw.sampleRecord with e | y
  · simp [okw.Sample, okw.calls, replay, hy, Run.targets]
  · rcases hj : m.json okw.sampleRecord with e | j
    · simp [okw.Sample, okw.calls, okw.writeFile, recording, replay, hy, hj, Run.targets]
    · rcases hd : m.daml okw.sampleRecord okw.TypeMap with e | dm
      · simp [okw.Sample, okw.calls, okw.writeFile, recording, replay, hy, hj, hd,
          Run.targets]
      · simp [okw.Sample, okw.calls, okw.writeFile, recording, replay, hy, hj, hd,
          Run.targets]

theorem okt_Sample_calls {σ : Type} (m : Marshallers okt.OKT okt.Any) (w : WriteFile σ)
    (d : GoString) (fs : σ) :
    (okt.Sample m w d fs).fs = replay w (okt.calls m w d fs) fs ∧
    (okt.calls m w d fs).map Prod.fst <+:
      [filepath.Join [d, utf8 "okt.yaml"], filepath.Join [d, utf8 "okt.json"],
       filepath.Join [d, utf8 "src/main/daml/OKT.daml"]] ∧
    (okt.Sample m w d fs).targets = (okt.calls m w d fs).map Prod.fst ∧
    ((okt.Sample m w d fs).exit = .returned ↔
      (okt.calls m w d fs).map Prod.fst =
        [filepath.Join [d, utf8 "okt.yaml"], filepath.Join [d, utf8 "okt.json"],
         filepath.Join [d, utf8 "src/main/daml/OKT.daml"]]) ∧
    (∀ y j dm, m.yaml okt.sampleRecord = .ok y → m.json okt.sampleRecord = .ok j →
      m.daml okt.sampleRecord okt.TypeMap = .ok dm →
      okt.calls m w d fs =
        [(filepath.Join [d, utf8 "okt.yaml"], y), (filepath.Join [d, utf8 "okt.json"], j),
         (filepath.Join [d, utf8 "src/main/daml/OKT.daml"], dm)] ∧
      (okt.Sample m w d fs).fs =
        (w (w (w fs (filepath.Join [d, utf8 "okt.yaml"]) y).1
            (filepath.Join [d, utf8 "okt.json"]) j).1
          (filepath.Join [d, utf8 "src/main/daml/OKT.daml"]) dm).1 ∧
      (okt.Sample m w d fs).exit = .returned) := by
  rcases hy : m.yaml okt.sampleRecord with e | y
  · simp [okt.Sample, okt.calls, replay, hy, Run.targets]
  · rcases hj : m.json okt.sampleRecord with e | j
    · simp [okt.Sample, okt.calls, okt.writeFile, recording, replay, hy, hj, Run.targets]
    · rcases hd : m.daml okt.sampleRecord okt.TypeMap with e | dm
      · simp [okt.Sample, okt.calls, okt.writeFile, recording, replay, hy, hj, hd,
          Run.targets]
      · simp [okt.Sample, okt.calls, okt.writeFile, recording, replay, hy, hj, hd,
          Run.targets]

/-- The writes of a run of `main`: the file system is the result of the calls
the writer receives, which name an initial part of the six paths, all six
exactly when both generators return; when the six serializations succeed the
writer receives the six files with their contents, in order. -/
theorem main_calls {σ : Type} (mw : Marshallers okw.OKW okw.Any)
    (mt : Marshallers okt.OKT okt.Any) (w : WriteFile σ) (fs : σ) :
    (templates.main mw mt w fs).fs = replay w (templates.calls mw mt w fs) fs ∧
    (templates.calls mw mt w fs).map Prod.fst <+:
      [utf8 "samples/okw/okw.yaml", utf8 "samples/okw/okw.json",
         utf8 "samples/okw/src/main/daml/OKW.daml", utf8 "samples/okt/okt.yaml",
         utf8 "samples/okt/okt.json", utf8 "samples/okt/src/main/daml/OKT.daml"] ∧
    ((templates.main mw mt w fs).exit = .returned ↔
      (templates.calls mw mt w fs).map Prod.fst =
        [utf8 "samples/okw/okw.yaml", utf8 "samples/okw/okw.json",
         utf8 "samples/okw/src/main/daml/OKW.daml", utf8 "samples/okt/okt.yaml",
         utf8 "samples/okt/okt.json", utf8 "samples/okt/src/main/daml/OKT.daml"]) ∧
    (∀ y1 j1 d1 y2 j2 d2, mw.yaml okw.sampleRecord = .ok y1 →
      mw.json okw.sampleRecord = .ok j1 → mw.daml okw.sampleRecord okw.TypeMap = .ok d1 →
      mt.yaml okt.sampleRecord = .ok y2 → mt.json okt.sampleRecord = .ok j2 →
      mt.daml okt.sampleRecord okt.TypeMap = .ok d2 →
      templates.calls mw mt w fs =
        [(utf8 "samples/okw/okw.yaml", y1), (utf8 "samples/okw/okw.json", j1),
         (utf8 "samples/okw/src/main/daml/OKW.daml", d1), (utf8 "samples/okt/okt.yaml", y2),
         (utf8 "samples/okt/okt.json", j2), (utf8 "samples/okt/src/main/daml/OKT.daml", d2)] ∧
      (templates.main mw mt w fs).exit = .returned) := by
  have p1 : filepath.Join [utf8 "samples/okw", utf8 "okw.yaml"] =
      utf8 "samples/okw/okw.yaml" := by decide
  have p2 : filepath.Join [utf8 "samples/okw", utf8 "okw.json"] =
      utf8 "samples/okw/okw.json" := by decide
  have p3 : filepath.Join [utf8 "samples/okw", utf8 "src/main/daml/OKW.daml"] =
      utf8 "samples/okw/src/main/daml/OKW.daml" := by decide
  have p4 : filepath.Join [utf8 "samples/okt", utf8 "okt.yaml"] =
      utf8 "samples/okt/okt.yaml" := by decide
  have p5 : filepath.Join [utf8 "samples/okt", utf8 "okt.json"] =
      utf8 "samples/okt/okt.json" := by decide
  have p6 : filepath.Join [utf8 "samples/okt", utf8 "src/main/daml/OKT.daml"] =
      utf8 "samples/okt/src/main/daml/OKT.daml" := by decide
  rcases h1 : mw.yaml okw.sampleRecord with e | y1
  · simp [templates.main, templates.calls, okw.Sample, replay, h1]
  rcases h2 : mw.json okw.sampleRecord with e | j1
  · simp [templates.main, templates.calls, okw.Sample, okw.writeFile, recording, replay,
      h1, h2, p1, p2, p3]
  rcases h3 : mw.daml okw.sampleRecord okw.TypeMap with e | d1
  · simp [templates.main, templates.calls, okw.Sample, okw.writeFile, recording, replay,
      h1, h2, h3, p1, p2, p3]
  rcases h4 : mt.yaml okt.sampleRecord with e | y2
  · simp [templates.main, templates.calls, okw.Sample, okt.Sample, okw.writeFile,
      okt.writeFile, recording, replay, h1, h2, h3, h4, p1, p2, p3, p4, p5, p6]
  rcases h5 : mt.json okt.sampleRecord with e | j2
  · simp [templates.main, templates.calls, okw.Sample, okt.Sample, okw.writeFile,
      okt.writeFile, recording, replay, h1, h2, h3, h4, h5, p1, p2, p3, p4, p5, p6]
  rcases h6 : mt.daml okt.sampleRecord okt.TypeMap with e | d2
  · simp [templates.main, templates.calls, okw.Sample, okt.Sample, okw.writeFile,
      okt.writeFile, recording, replay, h1, h2, h3, h4, h5, h6, p1, p2, p3, p4, p5, p6]
  · simp [templates.main, templates.calls, okw.Sample, okt.Sample, okw.writeFile,
      okt.writeFile, recording, replay, h1, h2, h3, h4, h5, h6, p1, p2, p3, p4, p5, p6]
    intro a1 a2 a3 a4 a5 a6 e1 e2 e3 e4 e5 e6
    exact ⟨e1, e2, e3, e4, e5, e6⟩

/-- C16: for every output directory `d` and every writer, the calls the writer
receives in a run of `okw.Sample` name the paths `Join(d, "okw.yaml")`,
`Join(d, "okw.json")`, `Join(d, "src/main/daml/OKW.daml")` in that order, and
in a run of `okt.Sample` the paths `Join(d, "okt.yaml")`, `Join(d, "okt.json")`,
`Join(d, "src/main/daml/OKT.daml")`. The file system after the run is the
result of exactly these calls; when the three serializations succeed the
writer receives exactly the three files, each with the output of its
serializer, and the generator returns; otherwise the process ends at the
failed serialization and the calls are the initial part before it. For the
directories `main` passes the six paths are pairwise distinct, and a run of
`main` on a file system in memory leaves exactly the six files. -/
theorem Sample_targets {σ : Type} (mw : Marshallers okw.OKW okw.Any)
    (mt : Marshallers okt.OKT okt.Any) (w : WriteFile σ) (d : GoString) (fs : σ) :
    (((okw.Sample mw w d fs).fs = replay w (okw.calls mw w d fs) fs ∧
      (okw.calls mw w d fs).map Prod.fst <+:
        [filepath.Join [d, utf8 "okw.yaml"], filepath.Join [d, utf8 "okw.json"],
         filepath.Join [d, utf8 "src/main/daml/OKW.daml"]] ∧
      (okw.Sample mw w d fs).targets = (okw.calls mw w d fs).map Prod.fst ∧
      ((okw.Sample mw w d fs).exit = .returned ↔
        (okw.calls mw w d fs).map Prod.fst =
          [filepath.Join [d, utf8 "okw.yaml"], filepath.Join [d, utf8 "okw.json"],
           filepath.Join [d, utf8 "src/main/daml/OKW.daml"]]) ∧
      (∀ y j dm, mw.yaml okw.sampleRecord = .ok y → mw.json okw.sampleRecord = .ok j →
        mw.daml okw.sampleRecord okw.TypeMap = .ok dm →
        okw.calls mw w d fs =
          [(filepath.Join [d, utf8 "okw.yaml"], y), (filepath.Join [d, utf8 "okw.json"], j),
           (filepath.Join [d, utf8 "src/main/daml/OKW.daml"], dm)] ∧
        (okw.Sample mw w d fs).fs =
          (w (w (w fs (filepath.Join [d, utf8 "okw.yaml"]) y).1
              (filepath.Join [d, utf8 "okw.json"]) j).1
            (filepath.Join [d, utf8 "src/main/daml/OKW.daml"]) dm).1 ∧
        (okw.Sample mw w d fs).exit = .returned)) ∧
      ((okw.Sample mw w d fs).targets <+:
        [filepath.Join [d, utf8 "okw.yaml"], filepath.Join [d, utf8 "okw.json"],
         filepath.Join [d, utf8 "src/main/daml/OKW.daml"]] ∧
      ((okw.Sample mw w d fs).exit = .returned ↔
        (okw.Sample mw w d fs).targets =
          [filepath.Join [d, utf8 "okw.yaml"], filepath.Join [d, utf8 "okw.json"],
           filepath.Join [d, utf8 "src/main/daml/OKW.daml"]]))) ∧
    (((okt.Sample mt w d fs).fs = replay w (okt.calls mt w d fs) fs ∧
      (okt.calls mt w d fs).map Prod.fst <+:
        [filepath.Join [d, utf8 "okt.yaml"], filepath.Join [d, utf8 "okt.json"],
         filepath.Join [d, utf8 "src/main/daml/OKT.daml"]] ∧
      (okt.Sample mt w d fs).targets = (okt.calls mt w d fs).map Prod.fst ∧
      ((okt.Sample mt w d fs).exit = .returned ↔
        (okt.calls mt w d fs).map Prod.fst =
          [filepath.Join [d, utf8 "okt.yaml"], filepath.Join [d, utf8 "okt.json"],
           filepath.Join [d, utf8 "src/main/daml/OKT.daml"]]) ∧
      (∀ y j dm, mt.yaml okt.sampleRecord = .ok y → mt.json okt.sampleRecord = .ok j →
        mt.daml okt.sampleRecord okt.TypeMap = .ok dm →
        okt.calls mt w d fs =
          [(filepath.Join [d, utf8 "okt.yaml"], y), (filepath.Join [d, utf8 "okt.json"], j),
           (filepath.Join [d, utf8 "src/main/daml/OKT.daml"], dm)] ∧
        (okt.Sample mt w d fs).fs =
          (w (w (w fs (filepath.Join [d, utf8 "okt.yaml"]) y).1
              (filepath.Join [d, utf8 "okt.json"]) j).1
            (filepath.Join [d, utf8 "src/main/daml/OKT.daml"]) dm).1 ∧
        (okt.Sample mt w d fs).exit = .returned)) ∧
      ((okt.Sample mt w d fs).targets <+:
        [filepath.Join [d, utf8 "okt.yaml"], filepath.Join [d, utf8 "okt.json"],
         filepath.Join [d, utf8 "src/main/daml/OKT.daml"]] ∧
      ((okt.Sample mt w d fs).exit = .returned ↔
        (okt.Sample mt w d fs).targets =
          [filepath.Join [d, utf8 "okt.yaml"], filepath.Join [d, utf8 "okt.json"],
           filepath.Join [d, utf8 "src/main/daml/OKT.daml"]]))) ∧
    ([filepath.Join [utf8 "samples/okw", utf8 "okw.yaml"],
        filepath.Join [utf8 "samples/okw", utf8 "okw.json"],
        filepath.Join [utf8 "samples/okw", utf8 "src/main/daml/OKW.daml"],
        filepath.Join [utf8 "samples/okt", utf8 "okt.yaml"],
        filepath.Join [utf8 "samples/okt", utf8 "okt.json"],
        filepath.Join [utf8 "samples/okt", utf8 "src/main/daml/OKT.daml"]] =
      [utf8 "samples/okw/okw.yaml", utf8 "samples/okw/okw.json",
        utf8 "samples/okw/src/main/daml/OKW.daml", utf8 "samples/okt/okt.yaml",
        utf8 "samples/okt/okt.json", utf8 "samples/okt/src/main/daml/OKT.daml"]) ∧
    [filepath.Join [utf8 "samples/okw", utf8 "okw.yaml"],
      filepath.Join [utf8 "samples/okw", utf8 "okw.json"],
      filepath.Join [utf8 "samples/okw", utf8 "src/main/daml/OKW.daml"],
      filepath.Join [utf8 "samples/okt", utf8 "okt.yaml"],
      filepath.Join [utf8 "samples/okt", utf8 "okt.json"],
      filepath.Join [utf8 "samples/okt", utf8 "src/main/daml/OKT.daml"]].Nodup ∧
    (templates.main (okMarshallers okw.OKW okw.Any) (okMarshallers okt.OKT okt.Any)
        memWrite []).targets =
      [utf8 "samples/okw/okw.yaml", utf8 "samples/okw/okw.json",
        utf8 "samples/okw/src/main/daml/OKW.daml", utf8 "samples/okt/okt.yaml",
        utf8 "samples/okt/okt.json", utf8 "samples/okt/src/main/daml/OKT.daml"] ∧
    (templates.main (okMarshallers okw.OKW okw.Any) (okMarshallers okt.OKT okt.Any)
        memWrite []).fs =
      [(utf8 "samples/okt/src/main/daml/OKT.daml", utf8 "daml"),
        (utf8 "samples/okt/okt.json", utf8 "json"), (utf8 "samples/okt/okt.yaml", utf8 "yaml"),
        (utf8 "samples/okw/src/main/daml/OKW.daml", utf8 "daml"),
        (utf8 "samples/okw/okw.json", utf8 "json"),
        (utf8 "samples/okw/okw.yaml", utf8 "yaml")] ∧
    ((templates.main mw mt w fs).fs = replay w (templates.calls mw mt w fs) fs ∧
      (templates.calls mw mt w fs).map Prod.fst <+:
        [utf8 "samples/okw/okw.yaml", utf8 "samples/okw/okw.json",
           utf8 "samples/okw/src/main/daml/OKW.daml", utf8 "samples/okt/okt.yaml",
           utf8 "samples/okt/okt.json", utf8 "samples/okt/src/main/daml/OKT.daml"] ∧
      ((templates.main mw mt w fs).exit = .returned ↔
        (templates.calls mw mt w fs).map Prod.fst =
          [utf8 "samples/okw/okw.yaml", utf8 "samples/okw/okw.json",
           utf8 "samples/okw/src/main/daml/OKW.daml", utf8 "samples/okt/okt.yaml",
           utf8 "samples/okt/okt.json", utf8 "samples/okt/src/main/daml/OKT.daml"]) ∧
      (∀ y1 j1 d1 y2 j2 d2, mw.yaml okw.sampleRecord = .ok y1 →
        mw.json okw.sampleRecord = .ok j1 → mw.daml okw.sampleRecord okw.TypeMap = .ok d1 →
        mt.yaml okt.sampleRecord = .ok y2 → mt.json okt.sampleRecord = .ok j2 →
        mt.daml okt.sampleRecord okt.TypeMap = .ok d2 →
        templates.calls mw mt w fs =
          [(utf8 "samples/okw/okw.yaml", y1), (utf8 "samples/okw/okw.json", j1),
           (utf8 "samples/okw/src/main/daml/OKW.daml", d1), (utf8 "samples/okt/okt.yaml", y2),
           (utf8 "samples/okt/okt.json", j2), (utf8 "samples/okt/src/main/daml/OKT.daml", d2)] ∧
        (templates.main mw mt w fs).exit = .returned)) :=
  ⟨⟨okw_Sample_calls mw w d fs, okw_Sample_targets mw w d fs⟩,
    ⟨okt_Sample_calls mt w d fs, okt_Sample_targets mt w d fs⟩, by decide, by decide,
    by decide, by decide, main_calls mw mt w fs⟩

/-- Witness for C16: with serializers that succeed and the file system in
memory, the writer of `okw.Sample "samples/okw"` receives exactly the three
files, and the file system holds them. -/
theorem Sample_targets_witness :
    (okMarshallers okw.OKW okw.Any).yaml okw.sampleRecord = .ok (utf8 "yaml") ∧
    (okMarshallers okw.OKW okw.Any).json okw.sampleRecord = .ok (utf8 "json") ∧
    (okMarshallers okw.OKW okw.Any).daml okw.sampleRecord okw.TypeMap = .ok (utf8 "daml") ∧
    okw.calls (okMarshallers okw.OKW okw.Any) memWrite (utf8 "samples/okw") [] =
      [(filepath.Join [utf8 "samples/okw", utf8 "okw.yaml"], utf8 "yaml"),
       (filepath.Join [utf8 "samples/okw", utf8 "okw.json"], utf8 "json"),
       (filepath.Join [utf8 "samples/okw", utf8 "src/main/daml/OKW.daml"], utf8 "daml")] ∧
    (okw.Sample (okMarshallers okw.OKW okw.Any) memWrite (utf8 "samples/okw") []).fs =
      (memWrite (memWrite (memWrite []
            (filepath.Join [utf8 "samples/okw", utf8 "okw.yaml"]) (utf8 "yaml")).1
          (filepath.Join [utf8 "samples/okw", utf8 "okw.json"]) (utf8 "json")).1
        (filepath.Join [utf8 "samples/okw", utf8 "src/main/daml/OKW.daml"]) (utf8 "daml")).1 ∧
    (okw.Sample (okMarshallers okw.OKW okw.Any) memWrite (utf8 "samples/okw") []).exit =
      .returned :=
  ⟨rfl, rfl, rfl,
    (Sample_targets (okMarshallers okw.OKW okw.Any) (okMarshallers okt.OKT okt.Any) memWrite
      (utf8 "samples/okw") []).1.1.2.2.2.2 (utf8 "yaml") (utf8 "json") (utf8 "daml")
      rfl rfl rfl⟩

theorem okw_Sample_write_errors {σ τ : Type} (m : Marshallers okw.OKW okw.Any)
    (w1 : WriteFile σ) (w2 : WriteFile τ) (d : GoString) (fs1 : σ) (fs2 : τ) :
    (okw.Sample m w1 d fs1).attempts = (okw.Sample m w2 d fs2).attempts ∧
    (okw.Sample m w1 d fs1).exit = (okw.Sample m w2 d fs2).exit ∧
    ((okw.Sample m w1 d fs1).exit = .returned ↔
      ∃ y j dm, m.yaml okw.sampleRecord = .ok y ∧ m.json okw.sampleRecord = .ok j ∧
        m.daml okw.sampleRecord okw.TypeMap = .ok dm ∧
        (okw.Sample m w1 d fs1).attempts =
          [.registerValidation "what3words", .printf (utf8 "Is Enum?: %s") true,
           .marshal .yaml, .writeFile (filepath.Join [d, utf8 "okw.yaml"]) y none,
           .marshal .json, .writeFile (filepath.Join [d, utf8 "okw.json"]) j none,
           .marshal .daml,
           .writeFile (filepath.Join [d, utf8 "src/main/daml/OKW.daml"]) dm none]) ∧
    ((okw.Sample m w1 d fs1).exit = .returned ∨
      ∃ err, (okw.Sample m w1 d fs1).exit = .exited 1 ∧
        (okw.Sample m w1 d fs1).events.getLast? = some (.fatalf err) ∧
        (m.yaml okw.sampleRecord = .error err ∨ m.json okw.sampleRecord = .error err ∨
          m.daml okw.sampleRecord okw.TypeMap = .error err)) := by
  have hm : okw.methods.has "FacilityStatus" "Enum" = true := by decide
  rcases hy : m.yaml okw.sampleRecord with e | y
  · simp [okw.Sample, hy, Run.attempts, Event.attempt]
  · rcases hj : m.json okw.sampleRecord with e | j
    · simp [okw.Sample, okw.writeFile, hy, hj, Run.attempts, Event.attempt]
    · rcases hd : m.daml okw.sampleRecord okw.TypeMap with e | dm
      · simp [okw.Sample, okw.writeFile, hy, hj, hd, Run.attempts, Event.attempt]
      · simp [okw.Sample, okw.writeFile, hy, hj, hd, Run.attempts, Event.attempt, hm]

theorem okt_Sample_write_errors {σ τ : Type} (m : Marshallers okt.OKT okt.Any)
    (w1 : WriteFile σ) (w2 : WriteFile τ) (d : GoString) (fs1 : σ) (fs2 : τ) :
    (okt.Sample m w1 d fs1).attempts = (okt.Sample m w2 d fs2).attempts ∧
    (okt.Sample m w1 d fs1).exit = (okt.Sample m w2 d fs2).exit ∧
    ((okt.Sample m w1 d fs1).exit = .returned ↔
      ∃ y j dm, m.yaml okt.sampleRecord = .ok y ∧ m.json okt.sampleRecord = .ok j ∧
        m.daml okt.sampleRecord okt.TypeMap = .ok dm ∧
        (okt.Sample m w1 d fs1).attempts =
          [.registerValidation "what3words",
           .marshal .yaml, .writeFile (filepath.Join [d, utf8 "okt.yaml"]) y none,
           .marshal .json, .writeFile (filepath.Join [d, utf8 "okt.json"]) j none,
           .marshal .daml,
           .writeFile (filepath.Join [d, utf8 "src/main/daml/OKT.daml"]) dm none]) ∧
    ((okt.Sample m w1 d fs1).exit = .returned ∨
      ∃ err, (okt.Sample m w1 d fs1).exit = .exited 1 ∧
        (okt.Sample m w1 d fs1).events.getLast? = some (.fatalf err) ∧
        (m.yaml okt.sampleRecord = .error err ∨ m.json okt.sampleRecord = .error err ∨
          m.daml okt.sampleRecord okt.TypeMap = .error err)) := by
  rcases hy : m.yaml okt.sampleRecord with e | y
  · simp [okt.Sample, hy, Run.attempts, Event.attempt]
  · rcases hj : m.json okt.sampleRecord with e | j
    · simp [okt.Sample, okt.writeFile, hy, hj, Run.attempts, Event.attempt]
    · rcases hd : m.daml okt.sampleRecord okt.TypeMap with e | dm
      · simp [okt.Sample, okt.writeFile, hy, hj, hd, Run.attempts, Event.attempt]
      · simp [okt.Sample, okt.writeFile, hy, hj, hd, Run.attempts, Event.attempt]

/-- C18: the sample generators do not use the error `writeFile` returns. For
any serializers and any two file systems, whatever their writes return, a
generator attempts the same serializations and writes in the same order and
ends the same way; it returns exactly when the three serializations succeed,
after the three writes, and otherwise the process ends through `log.Fatalf`
with the error of a serialization. With writes that all fail and serializers
that succeed both generators return, having attempted their three writes. -/
theorem Sample_ignores_write_errors {σ τ : Type} (mw : Marshallers okw.OKW okw.Any)
    (mt : Marshallers okt.OKT okt.Any) (w1 : WriteFile σ) (w2 : WriteFile τ) (d : GoString)
    (fs1 : σ) (fs2 : τ) :
    ((okw.Sample mw w1 d fs1).attempts = (okw.Sample mw w2 d fs2).attempts ∧
      (okw.Sample mw w1 d fs1).exit = (okw.Sample mw w2 d fs2).exit ∧
      ((okw.Sample mw w1 d fs1).exit = .returned ↔
        ∃ y j dm, mw.yaml okw.sampleRecord = .ok y ∧ mw.json okw.sampleRecord = .ok j ∧
          mw.daml okw.sampleRecord okw.TypeMap = .ok dm ∧
          (okw.Sample mw w1 d fs1).attempts =
            [.registerValidation "what3words", .printf (utf8 "Is Enum?: %s") true,
             .marshal .yaml, .writeFile (filepath.Join [d, utf8 "okw.yaml"]) y none,
             .marshal .json, .writeFile (filepath.Join [d, utf8 "okw.json"]) j none,
             .marshal .daml,
             .writeFile (filepath.Join [d, utf8 "src/main/daml/OKW.daml"]) dm none]) ∧
      ((okw.Sample mw w1 d fs1).exit = .returned ∨
        ∃ err, (okw.Sample mw w1 d fs1).exit = .exited 1 ∧
          (okw.Sample mw w1 d fs1).events.getLast? = some (.fatalf err) ∧
          (mw.yaml okw.sampleRecord = .error err ∨ mw.json okw.sampleRecord = .error err ∨
            mw.daml okw.sampleRecord okw.TypeMap = .error err))) ∧
    ((okt.Sample mt w1 d fs1).attempts = (okt.Sample mt w2 d fs2).attempts ∧
      (okt.Sample mt w1 d fs1).exit = (okt.Sample mt w2 d fs2).exit ∧
      ((okt.Sample mt w1 d fs1).exit = .returned ↔
        ∃ y j dm, mt.yaml okt.sampleRecord = .ok y ∧ mt.json okt.sampleRecord = .ok j ∧
          mt.daml okt.sampleRecord okt.TypeMap = .ok dm ∧
          (okt.Sample mt w1 d fs1).attempts =
            [.registerValidation "what3words",
             .marshal .yaml, .writeFile (filepath.Join [d, utf8 "okt.yaml"]) y none,
             .marshal .json, .writeFile (filepath.Join [d, utf8 "okt.json"]) j none,
             .marshal .daml,
             .writeFile (filepath.Join [d, utf8 "src/main/daml/OKT.daml"]) dm none]) ∧
      ((okt.Sample mt w1 d fs1).exit = .returned ∨
        ∃ err, (okt.Sample mt w1 d fs1).exit = .exited 1 ∧
          (okt.Sample mt w1 d fs1).events.getLast? = some (.fatalf err) ∧
          (mt.yaml okt.sampleRecord = .error err ∨ mt.json okt.sampleRecord = .error err ∨
            mt.daml okt.sampleRecord okt.TypeMap = .error err))) ∧
    ((okw.Sample (okMarshallers okw.OKW okw.Any) failWrite (utf8 "samples/okw") []).exit =
        .returned ∧
      (okw.Sample (okMarshallers okw.OKW okw.Any) failWrite (utf8 "samples/okw") []).fs = [] ∧
      (okw.Sample (okMarshallers okw.OKW okw.Any) failWrite (utf8 "samples/okw") []).events =
        [.registerValidation "what3words", .printf (utf8 "Is Enum?: %s") true,
         .marshal .yaml,
         .writeFile (utf8 "samples/okw/okw.yaml") (utf8 "yaml")
           (some (utf8 "no such file or directory")),
         .marshal .json,
         .writeFile (utf8 "samples/okw/okw.json") (utf8 "json")
           (some (utf8 "no such file or directory")),
         .marshal .daml,
         .writeFile (utf8 "samples/okw/src/main/daml/OKW.daml") (utf8 "daml")
           (some (utf8 "no such file or directory"))] ∧
      (okt.Sample (okMarshallers okt.OKT okt.Any) failWrite (utf8 "samples/okt") []).exit =
        .returned ∧
      (okt.Sample (jsonFailing okt.OKT okt.Any) memWrite (utf8 "samples/okt") []).exit =
        .exited 1 ∧
      (okt.Sample (jsonFailing okt.OKT okt.Any) memWrite (utf8 "samples/okt") []).fs =
        [(utf8 "samples/okt/okt.yaml", utf8 "yaml")]) :=
  ⟨okw_Sample_write_errors mw w1 w2 d fs1 fs2, okt_Sample_write_errors mt w1 w2 d fs1 fs2,
    by decide⟩

/-! ## `MarshallJSON` -/

/-- A type assertion to the dynamic type of the interface value yields the
value held, and the declared type `URL` of either package is a defined type
over `url.URL`, not `url.URL` itself. -/
theorem typeAssert_same (v : url.URL) :
    (∃ r, typeAssert ⟨.external "url" "URL", v⟩ (.external "url" "URL") = .returned r ∧
      r = v) ∧
    okw.decls.lookup "URL" = some (.defined (.external "url" "URL")) ∧
    okt.decls.lookup "URL" = some (.defined (.external "url" "URL")) := by
  refine ⟨⟨v, ?_, rfl⟩, by decide, by decide⟩
  simp [typeAssert]

/-- C21: in both modules `MarshallJSON` panics on every URL value, whatever
`(url.URL).String` computes: the type assertion to `url.URL` fails because the
dynamic type of the boxed argument is the package's defined type `URL`; the
function never returns a result. -/
theorem MarshallJSON_panics (urlString : url.URL → GoString) :
    (∀ u : okw.URL,
      okw.MarshallJSON urlString u = .panicked ⟨.named "URL", .external "url" "URL"⟩ ∧
      u.box.type ≠ .external "url" "URL" ∧
      ∀ r, okw.MarshallJSON urlString u ≠ .returned r) ∧
    (∀ u : okt.URL,
      okt.MarshallJSON urlString u = .panicked ⟨.named "URL", .external "url" "URL"⟩ ∧
      u.box.type ≠ .external "url" "URL" ∧
      ∀ r, okt.MarshallJSON urlString u ≠ .returned r) ∧
    okw.MarshallJSON urlString okw.URL.zero =
      .panicked ⟨.named "URL", .external "url" "URL"⟩ := by
  have hokw : ∀ u : okw.URL,
      okw.MarshallJSON urlString u = .panicked ⟨.named "URL", .external "url" "URL"⟩ := by
    intro u
    simp [okw.MarshallJSON, typeAssert, okw.URL.box]
  have hokt : ∀ u : okt.URL,
      okt.MarshallJSON urlString u = .panicked ⟨.named "URL", .external "url" "URL"⟩ := by
    intro u
    simp [okt.MarshallJSON, typeAssert, okt.URL.box]
  refine ⟨fun u => ⟨hokw u, by simp [okw.URL.box], ?_⟩,
    fun u => ⟨hokt u, by simp [okt.URL.box], ?_⟩, hokw _⟩
  · intro r h
    rw [hokw u] at h
    cases h
  · intro r h
    rw [hokt u] at h
    cases h

/-! ## Vocabularies without values -/

/-- C22: in both modules `Enum` and `EnumOptions` of TypicalBatchSize, Skill
and Certification return the empty sequence for every receiver, so no value of
these types, empty or not, is a member of its own listing. -/
theorem empty_vocabularies :
    (∀ x : okw.TypicalBatchSize,
      x.Enum = [] ∧ x.EnumOptions = [] ∧ x ∉ x.Enum ∧ x.str ∉ x.EnumOptions) ∧
    (∀ x : okw.Skill,
      x.Enum = [] ∧ x.EnumOptions = [] ∧ x ∉ x.Enum ∧ x.str ∉ x.EnumOptions) ∧
    (∀ x : okw.Certification,
      x.Enum = [] ∧ x.EnumOptions = [] ∧ x ∉ x.Enum ∧ x.str ∉ x.EnumOptions) ∧
    (∀ x : okt.TypicalBatchSize,
      x.Enum = [] ∧ x.EnumOptions = [] ∧ x ∉ x.Enum ∧ x.str ∉ x.EnumOptions) ∧
    (∀ x : okt.Skill,
      x.Enum = [] ∧ x.EnumOptions = [] ∧ x ∉ x.Enum ∧ x.str ∉ x.EnumOptions) ∧
    (∀ x : okt.Certification,
      x.Enum = [] ∧ x.EnumOptions = [] ∧ x ∉ x.Enum ∧ x.str ∉ x.EnumOptions) := by
  refine ⟨?_, ?_, ?_, ?_, ?_, ?_⟩ <;> intro x <;>
    exact ⟨rfl, rfl, List.not_mem_nil _, List.not_mem_nil _⟩
